import Mathlib

/-!
Verification development for the randomchat server core
(UserManager, MatchingEngine, ChatManager).

The JavaScript classes are shallowly embedded: each `Map` becomes an
association list updated in place, each method becomes a pure function
from the manager state to a result and an updated state, wall-clock
reads (`new Date()`, `Date.now()`) become explicit `now : Nat`
parameters, and generated UUIDs become explicit identifier parameters.
JavaScript numbers are modelled with exact rationals; exceptions are
modelled with `Option`/`Except`.
-/

/-- Association-list lookup, mirroring `Map.prototype.get` (first
binding wins; JS maps have unique keys). -/
def mget {α : Type} : List (String × α) → String → Option α
  | [], _ => none
  | p :: m, k => if p.1 = k then some p.2 else mget m k

/-- Association-list update, mirroring `Map.prototype.set`: replace the
binding in place if the key is present, otherwise append. -/
def mset {α : Type} : List (String × α) → String → α → List (String × α)
  | [], k, v => [(k, v)]
  | p :: m, k, v => if p.1 = k then (k, v) :: m else p :: mset m k v

/-- Association-list removal, mirroring `Map.prototype.delete`. -/
def merase {α : Type} : List (String × α) → String → List (String × α)
  | [], _ => []
  | p :: m, k => if p.1 = k then merase m k else p :: merase m k

/-- A JavaScript runtime value, as far as the untrusted profile inputs
are concerned: primitives and arrays. -/
inductive JSVal where
  | undef
  | null
  | bool (b : Bool)
  | num (q : ℚ)
  | str (s : String)
  | arr (elems : List JSVal)

/-- JavaScript truthiness: `undefined`, `null`, `false`, `0` and the
empty string are falsy; every other modelled value is truthy. -/
def JSVal.truthy : JSVal → Bool
  | .undef => false
  | .null => false
  | .bool b => b
  | .num q => decide (q ≠ 0)
  | .str s => decide (s ≠ "")
  | .arr _ => true

mutual

/-- `String(v)` of a value, with array elements joined by commas and
nested `null`/`undefined` elements rendered as the empty string, as
`Array.prototype.join` does. (The decimal rendering of numbers is
modelled by the rational printer; no claim depends on its spelling.) -/
def JSVal.stringOf : JSVal → String
  | .undef => ""
  | .null => ""
  | .bool b => if b then "true" else "false"
  | .num q => toString q
  | .str s => s
  | .arr xs => String.intercalate "," (JSVal.stringListOf xs)

/-- Renders each element of an array for `Array.prototype.join`. -/
def JSVal.stringListOf : List JSVal → List String
  | [] => []
  | v :: vs => JSVal.stringOf v :: JSVal.stringListOf vs

end

/-- `v.toString()` called on a value: throws (`none`) on `undefined`
and `null`, which have no methods. -/
def JSVal.toStr : JSVal → Option String
  | .undef => none
  | .null => none
  | v => some v.stringOf

/-- `o || d` for an optional string field: `undefined` and `""` are
falsy and fall through to the default. -/
def jsOr (o : Option String) (d : String) : String :=
  match o with
  | none => d
  | some s => if s = "" then d else s

/-- `s || d` for a string already known to be present. -/
def jsOrS (s d : String) : String :=
  if s = "" then d else s

/-- `q || d` for a number: `0` is falsy. -/
def jsOrQ (q d : ℚ) : ℚ :=
  if q = 0 then d else q

/-- A raw, untrusted profile/preference map as received from a client.
Absent fields are `undef`. -/
structure RawProfile where
  gender : JSVal
  location : JSVal
  age : JSVal
  keywords : JSVal
  preferredGender : JSVal
  preferredAgeRange : JSVal
  preferredLocation : JSVal

/-- The wholly-absent raw profile (`{}`). -/
def RawProfile.empty : RawProfile :=
  ⟨.undef, .undef, .undef, .undef, .undef, .undef, .undef⟩

/-- The output of `UserManager.sanitizeProfile`: each field is present
only when the corresponding input field was truthy. -/
structure SanProfile where
  gender : Option String
  location : Option String
  age : Option String
  keywords : Option (List String)
deriving DecidableEq

namespace UserManager

/-- `keywords.map(k => k.toString().trim().substring(0, 50))` over an
array: `toString` throws on `null`/`undefined` elements, so the whole
map throws when any element lacks it. -/
def mapKeywordStrings : List JSVal → Option (List String)
  | [] => some []
  | k :: ks =>
    match JSVal.toStr k with
    | none => none
    | some t =>
      match mapKeywordStrings ks with
      | none => none
      | some ts => some (((t.trim).take 50) :: ts)

/-- The `// Sanitize gender` block: `profile.gender.toLowerCase()` is
only a function on strings, so a truthy non-string gender throws. -/
def sanitizeGender (gender : JSVal) : Option (Option String) :=
  if gender.truthy then
    match gender with
    | .str g =>
      some (some (if ["male", "female", "other", "not-specified"].contains g.toLower
        then g.toLower else "not-specified"))
    | _ => none
  else some none

/-- The `// Sanitize location` block. -/
def sanitizeLocation (location : JSVal) : Option (Option String) :=
  if location.truthy then
    match location.toStr with
    | none => none
    | some s => some (some ((s.take 100).trim))
  else some none

/-- The `// Sanitize age` block (`includes` never throws). -/
def sanitizeAge (age : JSVal) : Option String :=
  if age.truthy then
    some (match age with
      | .str a => if ["18-25", "26-35", "36-45", "46+", "not-specified"].contains a
          then a else "not-specified"
      | _ => "not-specified")
  else none

/-- The `// Sanitize keywords` block: a string is split on commas, an
array is mapped element-wise (throwing on `null`/`undefined` entries),
anything else truthy yields `[]`. -/
def sanitizeKeywords (keywords : JSVal) : Option (Option (List String)) :=
  if keywords.truthy then
    match keywords with
    | .str s => some (some (((s.splitOn ",").map (fun k => (k.trim).take 50)).take 10))
    | .arr xs =>
      match mapKeywordStrings xs with
      | none => none
      | some strs => some (some (strs.take 10))
    | _ => some (some [])
  else some none

/-- `UserManager.sanitizeProfile`. Returns `none` when the JavaScript
code would throw. -/
def sanitizeProfile (profile : RawProfile) : Option SanProfile := do
  let gender ← sanitizeGender profile.gender
  let location ← sanitizeLocation profile.location
  let age := sanitizeAge profile.age
  let keywords ← sanitizeKeywords profile.keywords
  pure { gender := gender, location := location, age := age, keywords := keywords }

/-- The preferences object built by `UserManager.extractPreferences`;
the raw field values are kept as-is when truthy. -/
structure UMPrefs where
  preferredGender : JSVal
  preferredAgeRange : JSVal
  preferredLocation : JSVal
  interests : JSVal

/-- `UserManager.extractPreferences`. -/
def extractPreferences (profile : RawProfile) : UMPrefs :=
  { preferredGender := if profile.preferredGender.truthy then profile.preferredGender else .str "any"
    preferredAgeRange := if profile.preferredAgeRange.truthy then profile.preferredAgeRange else .str "any"
    preferredLocation := if profile.preferredLocation.truthy then profile.preferredLocation else .str "any"
    interests := if profile.keywords.truthy then profile.keywords else .arr [] }

/-- The merged profile stored on a user, viewed again as a JavaScript
value (used when `updateProfile` re-extracts preferences from
`user.profile`, which never carries `preferred*` fields). -/
def profileAsRaw (p : SanProfile) : RawProfile :=
  { gender := match p.gender with | none => .undef | some s => .str s
    location := match p.location with | none => .undef | some s => .str s
    age := match p.age with | none => .undef | some s => .str s
    keywords := match p.keywords with | none => .undef | some ks => .arr (ks.map JSVal.str)
    preferredGender := .undef
    preferredAgeRange := .undef
    preferredLocation := .undef }

/-- `user.stats`. -/
structure UMStats where
  totalChats : Nat
  totalMessages : Nat
  averageChatDuration : ℚ
  violations : Nat
deriving DecidableEq

/-- `user.flags`. -/
structure UMFlags where
  isReported : Bool
  isBanned : Bool
  isBot : Bool
  trustScore : ℚ
deriving DecidableEq

/-- One entry of the `user.violations` log (the free-form `details`
payload is not used by any logic and is not modelled). -/
structure ViolationRec where
  vtype : String
  timestamp : Nat
  severity : String
deriving DecidableEq

/-- `user.banInfo`. -/
structure BanInfo where
  reason : String
  timestamp : Nat
  bannedBy : String
deriving DecidableEq

/-- A user session object. The two JavaScript maps alias one shared
object; the model stores the object once, keyed by user id, together
with a socket-id index. -/
structure UMUser where
  id : String
  socketId : String
  profile : SanProfile
  connectionTime : Nat
  lastActivity : Nat
  status : String
  currentChatId : Option String
  preferences : UMPrefs
  stats : UMStats
  flags : UMFlags
  violations : List ViolationRec
  banInfo : Option BanInfo

end UserManager

/-- The `UserManager` state: `users` is the single store keyed by user
id (the target of both JavaScript maps), `bySocket` maps a socket id to
the user id its map entry aliases. -/
structure UserManager where
  users : List (String × UserManager.UMUser)
  bySocket : List (String × String)
  totalConnections : Nat
  connectionHistoryLen : Nat

namespace UserManager

/-- The freshly-constructed manager. -/
def init : UserManager :=
  { users := [], bySocket := [], totalConnections := 0, connectionHistoryLen := 0 }

/-- `UserManager.createUser`. The fresh `userId` (a UUID in the source)
and the clock are parameters. When `sanitizeProfile` throws, no state
has been mutated yet, so the manager is unchanged. -/
def createUser (um : UserManager) (socketId : String) (profile : RawProfile)
    (userId : String) (now : Nat) : UserManager :=
  match sanitizeProfile profile with
  | none => um
  | some sp =>
    let user : UMUser :=
      { id := userId
        socketId := socketId
        profile := sp
        connectionTime := now
        lastActivity := now
        status := "online"
        currentChatId := none
        preferences := extractPreferences profile
        stats := { totalChats := 0, totalMessages := 0, averageChatDuration := 0, violations := 0 }
        flags := { isReported := false, isBanned := false, isBot := false, trustScore := 1 }
        violations := []
        banInfo := none }
    { um with
      users := mset um.users userId user
      bySocket := mset um.bySocket socketId userId
      totalConnections := um.totalConnections + 1
      connectionHistoryLen := min (um.connectionHistoryLen + 1) 1000 }

/-- Resolve a socket id to the aliased user object, as
`this.users.get(socketId)` does. -/
def bySocketId (um : UserManager) (socketId : String) : Option UMUser :=
  match mget um.bySocket socketId with
  | none => none
  | some uid => mget um.users uid

/-- `UserManager.removeUser`. -/
def removeUser (um : UserManager) (socketId : String) : UserManager :=
  match bySocketId um socketId with
  | none => um
  | some user =>
    { um with
      users := merase um.users user.id
      bySocket := merase um.bySocket socketId
      connectionHistoryLen := min (um.connectionHistoryLen + 1) 1000 }

/-- `UserManager.updateActivity`. -/
def updateActivity (um : UserManager) (socketId : String) (now : Nat) : UserManager :=
  match bySocketId um socketId with
  | none => um
  | some user =>
    { um with users := mset um.users user.id ({ user with lastActivity := now }) }

/-- Merge of `{...user.profile, ...sanitizedUpdates}`: a field present
in the sanitized updates overrides the stored one. -/
def mergeProfile (base upd : SanProfile) : SanProfile :=
  { gender := upd.gender.orElse (fun _ => base.gender)
    location := upd.location.orElse (fun _ => base.location)
    age := upd.age.orElse (fun _ => base.age)
    keywords := upd.keywords.orElse (fun _ => base.keywords) }

/-- `UserManager.updateProfile`. When `sanitizeProfile` throws, nothing
has been written. -/
def updateProfile (um : UserManager) (socketId : String) (profileUpdates : RawProfile)
    (now : Nat) : UserManager :=
  match bySocketId um socketId with
  | none => um
  | some user =>
    match sanitizeProfile profileUpdates with
    | none => um
    | some upd =>
      let merged := mergeProfile user.profile upd
      let user2 := { user with
        profile := merged
        preferences := extractPreferences (profileAsRaw merged)
        lastActivity := now }
      { um with users := mset um.users user.id user2 }

/-- `UserManager.setCurrentChat`. -/
def setCurrentChat (um : UserManager) (socketId chatId : String) (now : Nat) : UserManager :=
  match bySocketId um socketId with
  | none => um
  | some user =>
    { um with users := mset um.users user.id ({ user with currentChatId := some chatId, lastActivity := now }) }

/-- `UserManager.clearCurrentChat`. -/
def clearCurrentChat (um : UserManager) (socketId : String) (now : Nat) : UserManager :=
  match bySocketId um socketId with
  | none => um
  | some user =>
    let user2 := { user with
      currentChatId := none
      stats := { user.stats with totalChats := user.stats.totalChats + 1 }
      lastActivity := now }
    { um with users := mset um.users user.id user2 }

/-- A partial stats record for `Object.assign(user.stats, statUpdates)`. -/
structure StatsUpdate where
  totalChats : Option Nat
  totalMessages : Option Nat
  averageChatDuration : Option ℚ
  violations : Option Nat
deriving DecidableEq

/-- `UserManager.updateStats`. -/
def updateStats (um : UserManager) (socketId : String) (upd : StatsUpdate) (now : Nat) :
    UserManager :=
  match bySocketId um socketId with
  | none => um
  | some user =>
    let stats2 : UMStats :=
      { totalChats := upd.totalChats.getD user.stats.totalChats
        totalMessages := upd.totalMessages.getD user.stats.totalMessages
        averageChatDuration := upd.averageChatDuration.getD user.stats.averageChatDuration
        violations := upd.violations.getD user.stats.violations }
    { um with users := mset um.users user.id ({ user with stats := stats2, lastActivity := now }) }

/-- `UserManager.getViolationSeverity`. -/
def getViolationSeverity (violationType : String) : String :=
  if violationType = "spam" then "medium"
  else if violationType = "inappropriate_content" then "high"
  else if violationType = "harassment" then "high"
  else if violationType = "rate_limit_exceeded" then "low"
  else if violationType = "suspicious_behavior" then "medium"
  else if violationType = "malicious_content" then "high"
  else "medium"

/-- `UserManager.banUser`. -/
def banUser (um : UserManager) (userId reason : String) (now : Nat) : UserManager :=
  match mget um.users userId with
  | none => um
  | some user =>
    let user2 := { user with
      flags := { user.flags with isBanned := true }
      banInfo := some { reason := reason, timestamp := now, bannedBy := "system" } }
    { um with users := mset um.users userId user2 }

/-- `UserManager.flagUser`: bump the violation counter, dock the trust
score by 0.1 floored at 0, append a violation record, then auto-ban
when the updated counter reaches 5 or the updated score drops to 0.3. -/
def flagUser (um : UserManager) (userId violationType : String) (now : Nat) : UserManager :=
  match mget um.users userId with
  | none => um
  | some user =>
    let user2 : UMUser :=
      { user with
        stats := { user.stats with violations := user.stats.violations + 1 }
        flags := { user.flags with trustScore := max 0 (user.flags.trustScore - 1/10) }
        violations := user.violations ++
          [{ vtype := violationType, timestamp := now,
             severity := getViolationSeverity violationType }] }
    let um2 := { um with users := mset um.users userId user2 }
    if 5 ≤ user2.stats.violations ∨ user2.flags.trustScore ≤ 3/10 then
      banUser um2 userId "Automated ban due to multiple violations" now
    else um2

/-- `UserManager.isUserBanned`. -/
def isUserBanned (um : UserManager) (userId : String) : Bool :=
  match mget um.users userId with
  | none => false
  | some user => user.flags.isBanned

/-- `UserManager.cleanupInactiveUsers`. -/
def cleanupInactiveUsers (um : UserManager) (inactivityThreshold now : Nat) : UserManager :=
  let inactive := um.users.filter (fun p => decide (inactivityThreshold < now - p.2.lastActivity))
  inactive.foldl (fun acc p => removeUser acc p.2.socketId) um

/-- One mutating `UserManager` call, with its wall-clock instant and
any identifier the source would draw from a UUID generator. -/
inductive UOp where
  | create (socketId : String) (profile : RawProfile) (userId : String) (now : Nat)
  | remove (socketId : String)
  | touch (socketId : String) (now : Nat)
  | profileUpd (socketId : String) (updates : RawProfile) (now : Nat)
  | bindRoom (socketId chatId : String) (now : Nat)
  | unbindRoom (socketId : String) (now : Nat)
  | statsUpd (socketId : String) (upd : StatsUpdate) (now : Nat)
  | flag (userId vtype : String) (now : Nat)
  | ban (userId reason : String) (now : Nat)
  | cleanup (threshold now : Nat)

/-- Interpretation of one call. -/
def stepU (op : UOp) (um : UserManager) : UserManager :=
  match op with
  | .create sid p uid now => createUser um sid p uid now
  | .remove sid => removeUser um sid
  | .touch sid now => updateActivity um sid now
  | .profileUpd sid upd now => updateProfile um sid upd now
  | .bindRoom sid cid now => setCurrentChat um sid cid now
  | .unbindRoom sid now => clearCurrentChat um sid now
  | .statsUpd sid upd now => updateStats um sid upd now
  | .flag uid vt now => flagUser um uid vt now
  | .ban uid r now => banUser um uid r now
  | .cleanup th now => cleanupInactiveUsers um th now

/-- State reached from a fresh manager by a call sequence. -/
def runU (ops : List UOp) : UserManager :=
  ops.foldl (fun um op => stepU op um) init

/-- A `create` call never reuses a live user id (UUIDs are fresh); all
other calls are unconstrained. -/
def freshOk (op : UOp) (um : UserManager) : Bool :=
  match op with
  | .create _ _ uid _ => (mget um.users uid).isNone
  | _ => true

end UserManager

/-- A queue entry requirement pushed by `extractRequirements`: the value
is a string for gender/age/location and a keyword list for interests. -/
inductive ReqValue where
  | s (v : String)
  | ks (v : List String)

/-- One entry of `compatibility.requirements`. -/
structure Requirement where
  rtype : String
  value : ReqValue
  strict : Bool

/-- The client preferences after `MatchingEngine.sanitizePreferences`. -/
structure SanPrefs where
  chatType : String
  gender : String
  age : String
  location : String
  keywords : List String

/-- The raw preferences payload handed to the engine; fields may be
absent and `keywords` may be any value (`Array.isArray` guards it). -/
structure RawPrefs where
  chatType : Option String
  gender : Option String
  age : Option String
  location : Option String
  keywords : Option (List String)

namespace MatchingEngine

/-- `MatchingEngine.sanitizePreferences`. -/
def sanitizePreferences (preferences : RawPrefs) : SanPrefs :=
  { chatType := jsOr preferences.chatType "text"
    gender := jsOr preferences.gender "any"
    age := jsOr preferences.age "any"
    location := jsOr preferences.location "any"
    keywords := match preferences.keywords with
      | some ks => ks
      | none => [] }

/-- `MatchingEngine.extractRequirements`. -/
def extractRequirements (preferences : RawPrefs) : List Requirement :=
  (match preferences.gender with
    | some g => if g ≠ "" ∧ g ≠ "any" then [⟨"gender", .s g, true⟩] else []
    | none => []) ++
  (match preferences.age with
    | some a => if a ≠ "" ∧ a ≠ "any" then [⟨"age", .s a, false⟩] else []
    | none => []) ++
  (match preferences.location with
    | some l => if l ≠ "" ∧ l ≠ "any" then [⟨"location", .s l, false⟩] else []
    | none => []) ++
  (match preferences.keywords with
    | some ks => if ks.length > 0 then [⟨"interests", .ks ks, false⟩] else []
    | none => [])

/-- `MatchingEngine.calculateFlexibility`. -/
def calculateFlexibility (preferences : RawPrefs) : ℚ :=
  let f1 : Nat := if jsOr preferences.gender "" = "any" then 1 else 0
  let f2 : Nat := if preferences.age = none ∨ preferences.age = some "" ∨ preferences.age = some "any" then 1 else 0
  let f3 : Nat := if preferences.location = none ∨ preferences.location = some "" ∨ preferences.location = some "any" then 1 else 0
  let f4 : Nat := if (preferences.keywords.getD []).length = 0 then 1 else 0
  ((f1 + f2 + f3 + f4 : Nat) : ℚ) / 4

/-- `MatchingEngine.calculatePriority`: clamp to `[0.1, 2.0]` a score
seeded at 1, shifted by trust, violations and session freshness. -/
def calculatePriority (user : UserManager.UMUser) (now : Nat) : ℚ :=
  let priority : ℚ := 1
  let priority := priority + (user.flags.trustScore - 1/2) * (1/2)
  let priority := priority - (user.stats.violations : ℚ) * (1/10)
  let hoursSinceConnection : ℚ := (((now : ℚ) - (user.connectionTime : ℚ))) / (60 * 60 * 1000)
  let priority := if hoursSinceConnection < 1 then priority + 1/5 else priority
  max (1/10) (min 2 priority)

/-- A queue entry. -/
structure QueueEntry where
  id : String
  userId : String
  user : UserManager.UMUser
  preferences : SanPrefs
  queuedAt : Nat
  attempts : Nat
  lastAttempt : Option Nat
  priority : ℚ
  requirements : List Requirement
  flexibility : ℚ

end MatchingEngine

/-- The `MatchingEngine` state relevant to queue admission. -/
structure MatchingEngine where
  matchingQueue : List (String × MatchingEngine.QueueEntry)
  queueHistoryLen : Nat
  maxQueueSize : Nat

namespace MatchingEngine

/-- The freshly-constructed engine. -/
def init : MatchingEngine :=
  { matchingQueue := [], queueHistoryLen := 0, maxQueueSize := 1000 }

/-- `MatchingEngine.addToQueue`: return the existing entry untouched
when the user is already queued, throw `QueueFull` at the cap,
otherwise build and insert a fresh entry. -/
def addToQueue (eng : MatchingEngine) (user : UserManager.UMUser)
    (preferences : RawPrefs) (entryId : String) (now : Nat) :
    Except String (QueueEntry × MatchingEngine) :=
  match mget eng.matchingQueue user.id with
  | some e => .ok (e, eng)
  | none =>
    if eng.maxQueueSize ≤ eng.matchingQueue.length then
      .error "Matching queue is full"
    else
      let queueEntry : QueueEntry :=
        { id := entryId
          userId := user.id
          user := user
          preferences := sanitizePreferences preferences
          queuedAt := now
          attempts := 0
          lastAttempt := none
          priority := calculatePriority user now
          requirements := extractRequirements preferences
          flexibility := calculateFlexibility preferences }
      .ok (queueEntry,
        { eng with
          matchingQueue := mset eng.matchingQueue user.id queueEntry
          queueHistoryLen := eng.queueHistoryLen + 1 })

/-- Re-enqueue attempts after a first call: each one feeds the state of
the previous call back in (errors leave the state as is). -/
def enqueueMany (eng : MatchingEngine) (user : UserManager.UMUser) :
    List (RawPrefs × String × Nat) → MatchingEngine
  | [] => eng
  | (p, eid, now) :: rest =>
    match addToQueue eng user p eid now with
    | .ok (_, eng2) => enqueueMany eng2 user rest
    | .error _ => enqueueMany eng user rest

/-- `MatchingEngine.calculateGenderCompatibility`. -/
def calculateGenderCompatibility (entry1 entry2 : QueueEntry) : ℚ :=
  let pref1 := jsOrS entry1.preferences.gender "any"
  let pref2 := jsOrS entry2.preferences.gender "any"
  let gender1 := jsOr entry1.user.profile.gender "not-specified"
  let gender2 := jsOr entry2.user.profile.gender "not-specified"
  if pref1 = "any" ∧ pref2 = "any" then 1
  else
    (if pref1 = "any" ∨ pref1 = gender2 then (1 : ℚ)/2 else 0) +
    (if pref2 = "any" ∨ pref2 = gender1 then (1 : ℚ)/2 else 0)

/-- `entry.preferences.age` (or any already-string field) is falsy only
when empty. -/
def strFalsy (s : String) : Prop := s = ""

instance (s : String) : Decidable (strFalsy s) := by
  unfold strFalsy
  infer_instance

/-- `MatchingEngine.calculateAgeCompatibility`. -/
def calculateAgeCompatibility (entry1 entry2 : QueueEntry) : ℚ :=
  let age1 := entry1.user.profile.age
  let age2 := entry2.user.profile.age
  let prefAge1 := entry1.preferences.age
  let prefAge2 := entry2.preferences.age
  if age1 = none ∨ age1 = some "" ∨ age2 = none ∨ age2 = some "" ∨
      age1 = some "not-specified" ∨ age2 = some "not-specified" then 1/2
  else if age1 = age2 then 1
  else
    (if strFalsy prefAge1 ∨ prefAge1 = "any" ∨ some prefAge1 = age2 then (1 : ℚ)/2 else 0) +
    (if strFalsy prefAge2 ∨ prefAge2 = "any" ∨ some prefAge2 = age1 then (1 : ℚ)/2 else 0)

/-- `a.includes(b)` on strings: `b` occurs as a contiguous substring. -/
def strIncludes (a b : String) : Prop := b.data <:+: a.data

instance (a b : String) : Decidable (strIncludes a b) := by
  unfold strIncludes
  exact List.decidableInfix b.data a.data

/-- `MatchingEngine.calculateLocationCompatibility`. -/
def calculateLocationCompatibility (entry1 entry2 : QueueEntry) : ℚ :=
  let loc1 := entry1.user.profile.location
  let loc2 := entry2.user.profile.location
  if loc1 = none ∨ loc1 = some "" ∨ loc2 = none ∨ loc2 = some "" then 1/2
  else
    let location1 := (loc1.getD "").toLower
    let location2 := (loc2.getD "").toLower
    if location1 = location2 then 1
    else
      let country1 := ((location1.splitOn ",").headD "").trim
      let country2 := ((location2.splitOn ",").headD "").trim
      if country1 = country2 then 4/5
      else if strIncludes location1 location2 ∨ strIncludes location2 location1 then 3/5
      else 3/10

/-- `MatchingEngine.calculateInterestCompatibility`: Jaccard similarity
of the lowercased keyword sets plus a capped common-interest bonus. -/
def calculateInterestCompatibility (entry1 entry2 : QueueEntry) : ℚ :=
  let interests1 := entry1.user.profile.keywords.getD []
  let interests2 := entry2.user.profile.keywords.getD []
  if interests1.length = 0 ∧ interests2.length = 0 then 1/2
  else if interests1.length = 0 ∨ interests2.length = 0 then 2/5
  else
    let set1 := (interests1.map String.toLower).toFinset
    let set2 := (interests2.map String.toLower).toFinset
    let inter := set1 ∩ set2
    let union := set1 ∪ set2
    let jaccardSimilarity := (inter.card : ℚ) / (union.card : ℚ)
    let bonus := min ((inter.card : ℚ) * (1/10)) (3/10)
    min (jaccardSimilarity + bonus) 1

/-- `MatchingEngine.calculateTrustCompatibility`. -/
def calculateTrustCompatibility (entry1 entry2 : QueueEntry) : ℚ :=
  let trust1 := jsOrQ entry1.user.flags.trustScore 1
  let trust2 := jsOrQ entry2.user.flags.trustScore 1
  let averageTrust := (trust1 + trust2) / 2
  let trustDifference := |trust1 - trust2|
  averageTrust * (1 - trustDifference * (1/2))

/-- The scoring weights (`this.weights`). -/
structure Weights where
  gender : ℚ
  age : ℚ
  location : ℚ
  interests : ℚ
  trustScore : ℚ

/-- gender 0.30, age 0.20, location 0.15, interests 0.25, trust 0.10. -/
def weights : Weights :=
  { gender := 3/10, age := 1/5, location := 3/20, interests := 1/4, trustScore := 1/10 }

/-- `MatchingEngine.calculateCompatibility`: the weighted sum of the
five component scores, divided by the accumulated weight. -/
def calculateCompatibility (entry1 entry2 : QueueEntry) : ℚ :=
  let genderScore := calculateGenderCompatibility entry1 entry2
  let totalScore := genderScore * weights.gender
  let totalWeight := weights.gender
  let ageScore := calculateAgeCompatibility entry1 entry2
  let totalScore := totalScore + ageScore * weights.age
  let totalWeight := totalWeight + weights.age
  let locationScore := calculateLocationCompatibility entry1 entry2
  let totalScore := totalScore + locationScore * weights.location
  let totalWeight := totalWeight + weights.location
  let interestScore := calculateInterestCompatibility entry1 entry2
  let totalScore := totalScore + interestScore * weights.interests
  let totalWeight := totalWeight + weights.interests
  let trustScore := calculateTrustCompatibility entry1 entry2
  let totalScore := totalScore + trustScore * weights.trustScore
  let totalWeight := totalWeight + weights.trustScore
  if 0 < totalWeight then totalScore / totalWeight else 0

/-- `MatchingEngine.getMinimumCompatibility`: the dynamic threshold
`max(0.1, 0.3 − min(waitMinutes · 0.02, 0.2))`. -/
def getMinimumCompatibility (queueEntry : QueueEntry) (now : Nat) : ℚ :=
  let baseThreshold : ℚ := 3/10
  let waitTime : ℚ := (now : ℚ) - (queueEntry.queuedAt : ℚ)
  let waitMinutes := waitTime / (60 * 1000)
  let reduction := min (waitMinutes * (2/100)) (2/10)
  max (baseThreshold - reduction) (1/10)

end MatchingEngine

namespace ChatManager

/-- The message payload handed to `addMessage` by the socket layer. -/
structure MsgIn where
  id : Option String
  sender : String
  text : String

/-- A stored message after `addMessage` enhanced it. -/
structure CMessage where
  id : String
  sender : String
  text : String
  timestamp : Nat
  chatId : String
  sequence : Nat
  edited : Bool

/-- `chat.metadata.qualityIssues` entries. -/
structure QIssue where
  qtype : String
  timestamp : Nat
  details : String

/-- `chat.metadata`. -/
structure CMeta where
  messageCount : Nat
  duration : Nat
  endedBy : Option String
  endReason : Option String
  webrtcEnabled : Bool
  qualityIssues : List QIssue
  webrtcConnected : Option Bool
  webrtcConnectedAt : Option Nat

/-- `chat.settings`. -/
structure CSettings where
  maxMessages : Nat
  allowWebRTC : Bool
  contentFilterEnabled : Bool
  recordingEnabled : Bool

/-- `chat.analytics`. -/
structure CAnalytics where
  responseTime : List Nat
  activeTime : Nat
  silentPeriods : Nat
  lastMessageTime : Nat
  lastTypingTime : Option Nat
  averageResponseTime : Option ℚ
  engagementScore : Option ℚ
  webrtcDuration : Option Nat

/-- `chat.reports` entries. -/
structure CReport where
  id : String
  reporterId : String
  issueType : String
  description : String
  timestamp : Nat
  rstatus : String

/-- A chat room (the per-room JavaScript timer handle is a real-time
callback and is not part of the state model). -/
structure Chat where
  id : String
  ctype : String
  participants : List String
  createdAt : Nat
  lastActivity : Nat
  status : String
  messages : List CMessage
  metadata : CMeta
  settings : CSettings
  analytics : CAnalytics
  reports : List CReport
  endedAt : Option Nat

/-- One row of `this.chatHistory`. -/
structure HistoryEntry where
  id : String
  ctype : String
  createdAt : Nat
  endedAt : Option Nat
  duration : Nat
  messageCount : Nat
  endReason : Option String
  engagementScore : ℚ
  qualityIssues : Nat
  webrtcDuration : Nat

end ChatManager

/-- The `ChatManager` state. -/
structure ChatManager where
  chats : List (String × ChatManager.Chat)
  userChats : List (String × String)
  chatHistory : List ChatManager.HistoryEntry
  maxHistorySize : Nat
  maxChatDuration : Nat
  maxMessagesPerChat : Nat
  totalChats : Nat
  totalMessages : Nat

namespace ChatManager

/-- The freshly-constructed manager. -/
def init : ChatManager :=
  { chats := [], userChats := [], chatHistory := []
    maxHistorySize := 10000
    maxChatDuration := 60 * 60 * 1000
    maxMessagesPerChat := 1000
    totalChats := 0, totalMessages := 0 }

/-- `ChatManager.createChat`: builds the room unconditionally, stores
it, and points both participants' `userChats` entries at it. -/
def createChat (cm : ChatManager) (user1Id user2Id : String) (chatType : String)
    (chatId : String) (now : Nat) : Chat × ChatManager :=
  let chat : Chat :=
    { id := chatId
      ctype := chatType
      participants := [user1Id, user2Id]
      createdAt := now
      lastActivity := now
      status := "active"
      messages := []
      metadata :=
        { messageCount := 0, duration := 0, endedBy := none, endReason := none
          webrtcEnabled := chatType = "video", qualityIssues := []
          webrtcConnected := none, webrtcConnectedAt := none }
      settings :=
        { maxMessages := cm.maxMessagesPerChat, allowWebRTC := chatType = "video"
          contentFilterEnabled := true, recordingEnabled := false }
      analytics :=
        { responseTime := [], activeTime := 0, silentPeriods := 0
          lastMessageTime := now, lastTypingTime := none
          averageResponseTime := none, engagementScore := none, webrtcDuration := none }
      reports := []
      endedAt := none }
  (chat,
    { cm with
      chats := mset cm.chats chatId chat
      userChats := mset (mset cm.userChats user1Id chatId) user2Id chatId
      totalChats := cm.totalChats + 1 })

/-- `ChatManager.updateChatAnalytics`, invoked after the new message
has been pushed: record the inter-message gap (last 50 kept), grow the
active-time accumulator for gaps under a minute, otherwise count a
silent period. -/
def updateChatAnalytics (chat : Chat) (now : Nat) : Chat :=
  let lastMessageTime := chat.analytics.lastMessageTime
  let responseTime :=
    if 1 < chat.messages.length then
      let l := chat.analytics.responseTime ++ [now - lastMessageTime]
      if 50 < l.length then l.drop (l.length - 50) else l
    else chat.analytics.responseTime
  let timeSinceLastMessage := now - lastMessageTime
  let activeTime :=
    if timeSinceLastMessage < 60000 then chat.analytics.activeTime + timeSinceLastMessage
    else chat.analytics.activeTime
  let silentPeriods :=
    if timeSinceLastMessage < 60000 then chat.analytics.silentPeriods
    else chat.analytics.silentPeriods + 1
  { chat with analytics :=
      { chat.analytics with
        responseTime := responseTime
        activeTime := activeTime
        silentPeriods := silentPeriods
        lastMessageTime := now } }

/-- `ChatManager.calculateEngagementScore`. Rational model of the
floating-point formula; rational division by zero yields 0 where the
JavaScript quotient of a positive count by a zero duration is infinite.
No theorem below depends on the zero-duration value. -/
def calculateEngagementScore (chat : Chat) : ℚ :=
  if chat.messages.length = 0 then 0
  else
    let duration : ℚ := (chat.metadata.duration : ℚ)
    let messageCount : ℚ := (chat.messages.length : ℚ)
    let activeTime : ℚ := (chat.analytics.activeTime : ℚ)
    let silentPeriods : ℚ := (chat.analytics.silentPeriods : ℚ)
    let messageFrequency := messageCount / (duration / 60000)
    let score := min (messageFrequency * 10) 50
    let score := if 0 < duration then score + (activeTime / duration) * 30 else score
    let score := score - min (silentPeriods * 5) 20
    max 0 (min 100 score)

/-- `ChatManager.calculateFinalAnalytics`. -/
def calculateFinalAnalytics (chat : Chat) : Chat :=
  if 0 < chat.messages.length then
    let analytics1 :=
      if 0 < chat.analytics.responseTime.length then
        { chat.analytics with averageResponseTime := some ((chat.analytics.responseTime.sum : ℚ) / (chat.analytics.responseTime.length : ℚ)) }
      else chat.analytics
    let chat2 := { chat with analytics := analytics1 }
    { chat2 with analytics := { chat2.analytics with engagementScore := some (calculateEngagementScore chat2) } }
  else chat

/-- `ChatManager.addToHistory`: push the summary row and keep the most
recent `maxHistorySize` rows. -/
def addToHistory (cm : ChatManager) (chat : Chat) : List HistoryEntry :=
  let historyEntry : HistoryEntry :=
    { id := chat.id
      ctype := chat.ctype
      createdAt := chat.createdAt
      endedAt := chat.endedAt
      duration := chat.metadata.duration
      messageCount := chat.metadata.messageCount
      endReason := chat.metadata.endReason
      engagementScore := (chat.analytics.engagementScore).getD 0
      qualityIssues := chat.metadata.qualityIssues.length
      webrtcDuration := (chat.analytics.webrtcDuration).getD 0 }
  let h := cm.chatHistory ++ [historyEntry]
  if cm.maxHistorySize < h.length then h.drop (h.length - cm.maxHistorySize) else h

/-- `ChatManager.endChat`: flip the status, stamp the end metadata,
compute final analytics, drop both participants' `userChats` bindings,
archive the summary, and delete the room from the live map. -/
def endChat (cm : ChatManager) (chatId : String) (reason : String)
    (endedBy : Option String) (now : Nat) : Bool × ChatManager :=
  match mget cm.chats chatId with
  | none => (false, cm)
  | some chat =>
    let chat2 :=
      { chat with
        status := "ended"
        metadata := { chat.metadata with
          endReason := some reason
          endedBy := endedBy
          duration := now - chat.createdAt }
        endedAt := some now }
    let chat3 := calculateFinalAnalytics chat2
    let userChats2 := chat.participants.foldl (fun m u => merase m u) cm.userChats
    (true,
      { cm with
        chats := merase cm.chats chatId
        userChats := userChats2
        chatHistory := addToHistory cm chat3 })

/-- `ChatManager.addMessage`: reject missing or non-active rooms; at
the message cap auto-end the room with `message_limit_reached`;
otherwise stamp the message with the next sequence number, push it, and
refresh the analytics. -/
def addMessage (cm : ChatManager) (chatId : String) (message : MsgIn)
    (freshId : String) (now : Nat) : Bool × ChatManager :=
  match mget cm.chats chatId with
  | none => (false, cm)
  | some chat =>
    if chat.status ≠ "active" then (false, cm)
    else if chat.settings.maxMessages ≤ chat.messages.length then
      (false, (endChat cm chatId "message_limit_reached" none now).2)
    else
      let enhancedMessage : CMessage :=
        { id := jsOr message.id freshId
          sender := message.sender
          text := message.text
          timestamp := now
          chatId := chatId
          sequence := chat.messages.length + 1
          edited := false }
      let chat2 :=
        { chat with
          messages := chat.messages ++ [enhancedMessage]
          metadata := { chat.metadata with messageCount := chat.metadata.messageCount + 1 }
          lastActivity := now }
      let chat3 := updateChatAnalytics chat2 now
      (true,
        { cm with
          chats := mset cm.chats chatId chat3
          totalMessages := cm.totalMessages + 1 })

/-- `ChatManager.updateActivity`. -/
def updateActivity (cm : ChatManager) (chatId activityType : String)
    (dataType dataDetails : String) (now : Nat) : ChatManager :=
  match mget cm.chats chatId with
  | none => cm
  | some chat =>
    let chat := { chat with lastActivity := now }
    let chat :=
      if activityType = "typing" then
        { chat with analytics := { chat.analytics with lastTypingTime := some now } }
      else if activityType = "webrtc_connected" then
        { chat with metadata := { chat.metadata with
            webrtcConnected := some true, webrtcConnectedAt := some now } }
      else if activityType = "webrtc_disconnected" then
        let chat := { chat with metadata := { chat.metadata with webrtcConnected := some false } }
        match chat.metadata.webrtcConnectedAt with
        | some t =>
          { chat with analytics := { chat.analytics with
              webrtcDuration := some ((chat.analytics.webrtcDuration).getD 0 + (now - t)) } }
        | none => chat
      else if activityType = "quality_issue" then
        { chat with metadata := { chat.metadata with
            qualityIssues := chat.metadata.qualityIssues ++ [⟨dataType, now, dataDetails⟩] } }
      else chat
    { cm with chats := mset cm.chats chatId chat }

/-- `ChatManager.reportIssue`: record the report; severe kinds
(`harassment`, `inappropriate_content`, `spam`) auto-end the room. -/
def reportIssue (cm : ChatManager) (chatId reporterId issueType description : String)
    (reportId : String) (now : Nat) : Bool × ChatManager :=
  match mget cm.chats chatId with
  | none => (false, cm)
  | some chat =>
    let chat2 := { chat with reports := chat.reports ++
      [{ id := reportId, reporterId := reporterId, issueType := issueType,
         description := description, timestamp := now, rstatus := "pending" }] }
    let cm2 := { cm with chats := mset cm.chats chatId chat2 }
    if issueType = "harassment" ∨ issueType = "inappropriate_content" ∨ issueType = "spam" then
      (true, (endChat cm2 chatId ("reported_" ++ issueType) (some reporterId) now).2)
    else (true, cm2)

/-- `ChatManager.cleanupInactiveChats`. -/
def cleanupInactiveChats (cm : ChatManager) (inactivityThreshold now : Nat) : ChatManager :=
  let inactiveChats := cm.chats.filter (fun p => decide (inactivityThreshold < now - p.2.lastActivity))
  inactiveChats.foldl (fun acc p => (endChat acc p.1 "inactive_timeout" none now).2) cm

/-- One mutating `ChatManager` call: the four public mutators, the
periodic inactivity sweep, and the absolute 1-hour timer callback
(`endChat(chatId, 'timeout')`). -/
inductive COp where
  | create (user1Id user2Id chatType chatId : String) (now : Nat)
  | message (chatId : String) (msg : MsgIn) (freshId : String) (now : Nat)
  | endRoom (chatId reason : String) (endedBy : Option String) (now : Nat)
  | activity (chatId activityType dataType dataDetails : String) (now : Nat)
  | report (chatId reporterId issueType description reportId : String) (now : Nat)
  | sweep (threshold now : Nat)
  | timerFired (chatId : String) (now : Nat)

/-- Interpretation of one call. -/
def stepC (op : COp) (cm : ChatManager) : ChatManager :=
  match op with
  | .create u1 u2 ty cid now => (createChat cm u1 u2 ty cid now).2
  | .message cid msg fid now => (addMessage cm cid msg fid now).2
  | .endRoom cid r who now => (endChat cm cid r who now).2
  | .activity cid ak dt dd now => updateActivity cm cid ak dt dd now
  | .report cid rid it d repId now => (reportIssue cm cid rid it d repId now).2
  | .sweep th now => cleanupInactiveChats cm th now
  | .timerFired cid now => (endChat cm cid "timeout" none now).2

/-- State reached from a fresh manager by a call sequence. -/
def runC (ops : List COp) : ChatManager :=
  ops.foldl (fun cm op => stepC op cm) init

/-- The number of live rooms in state `active` that list `uid` among
their participants. -/
def countActiveRooms (cm : ChatManager) (uid : String) : Nat :=
  (cm.chats.filter (fun p => p.2.status = "active" ∧ p.2.participants.contains uid)).length

/-- The sequence column of a message list is exactly `1, 2, …, n`. -/
def seqsOk (ms : List CMessage) : Prop :=
  ms.map (fun m => m.sequence) = List.range' 1 ms.length

end ChatManager

/-- Well-keyed user store: every record sits under its own user id.
`createUser` keys each record by the id it stamps into it, and every
update writes back under `user.id`, so all reachable states satisfy
this. -/
def UserManager.idOk (um : UserManager) : Prop :=
  ∀ uid w, mget um.users uid = some w → w.id = uid

/-! ### Concrete sample data for the closed instantiations below -/

/-- A concrete sanitized profile. -/
def sampleSanProfile : SanProfile :=
  { gender := some "male", location := none, age := some "18-25", keywords := some ["chess"] }

/-- A concrete registered user. -/
def sampleUser : UserManager.UMUser :=
  { id := "u1", socketId := "s1", profile := sampleSanProfile,
    connectionTime := 0, lastActivity := 0, status := "online", currentChatId := none,
    preferences := UserManager.extractPreferences RawProfile.empty,
    stats := { totalChats := 0, totalMessages := 0, averageChatDuration := 0, violations := 0 },
    flags := { isReported := false, isBanned := false, isBot := false, trustScore := 1 },
    violations := [], banInfo := none }

/-- Concrete raw matching preferences. -/
def samplePrefs : RawPrefs :=
  { chatType := some "text", gender := some "any", age := none, location := none, keywords := none }

/-- The result of a first concrete `addToQueue` call. -/
def sampleQueueRes : MatchingEngine.QueueEntry × MatchingEngine :=
  match MatchingEngine.addToQueue MatchingEngine.init sampleUser samplePrefs "entry-1" 5 with
  | .ok r => r
  | .error _ =>
    ({ id := "", userId := "", user := sampleUser,
       preferences := MatchingEngine.sanitizePreferences samplePrefs,
       queuedAt := 0, attempts := 0, lastAttempt := none, priority := 0,
       requirements := [], flexibility := 0 }, MatchingEngine.init)

/-- A manager holding one freshly created user. -/
def sampleUM : UserManager :=
  UserManager.createUser UserManager.init "s1" RawProfile.empty "u1" 0

/-- The stored record of that user. -/
def sampleCreatedUser : UserManager.UMUser :=
  match mget sampleUM.users "u1" with
  | some u => u
  | none => sampleUser

/-- A one-operation trace creating the sample user. -/
def sampleOps : List UserManager.UOp :=
  [UserManager.UOp.create "s1" RawProfile.empty "u1" 0]

/-- The sample user's record after a flag for spam at time 3. -/
def sampleFlaggedUser : UserManager.UMUser :=
  { id := "u1", socketId := "s1",
    profile := { gender := none, location := none, age := none, keywords := none },
    connectionTime := 0, lastActivity := 0, status := "online", currentChatId := none,
    preferences := { preferredGender := .str "any", preferredAgeRange := .str "any", preferredLocation := .str "any", interests := .arr [] },
    stats := { totalChats := 0, totalMessages := 0, averageChatDuration := 0, violations := 1 },
    flags := { isReported := false, isBanned := false, isBot := false, trustScore := max 0 (1 - 1/10) },
    violations := [{ vtype := "spam", timestamp := 3, severity := "medium" }],
    banInfo := none }

/-- The manager after additionally creating a second user. -/
def sampleUM2 : UserManager :=
  UserManager.stepU (UserManager.UOp.create "s2" RawProfile.empty "u2" 7) sampleUM

/-- The second user's record. -/
def sampleUser2 : UserManager.UMUser :=
  match mget sampleUM2.users "u2" with
  | some u => u
  | none => sampleUser

/-- A trace that creates and then bans the sample user. -/
def sampleBanOps : List UserManager.UOp :=
  [UserManager.UOp.create "s1" RawProfile.empty "u1" 0,
   UserManager.UOp.ban "u1" "test" 1]

/-- The manager holding the banned sample user. -/
def sampleBannedUM : UserManager :=
  UserManager.runU sampleBanOps

/-- The banned sample user's record. -/
def sampleBannedUser : UserManager.UMUser :=
  match mget sampleBannedUM.users "u1" with
  | some u => u
  | none => sampleUser

/-- The banned user's record after a further activity touch. -/
def sampleBannedTouchedUser : UserManager.UMUser :=
  match mget (UserManager.stepU (UserManager.UOp.touch "s1" 5) sampleBannedUM).users "u1" with
  | some u => u
  | none => sampleUser

/-- Sequence invariant over a whole manager state. -/
def ChatManager.chatSeqInv (cm : ChatManager) : Prop :=
  ∀ cid chat, mget cm.chats cid = some chat → ChatManager.seqsOk chat.messages

/-- A manager holding one active room between alice and bob. -/
def sampleCM1 : ChatManager :=
  (ChatManager.createChat ChatManager.init "alice" "bob" "text" "room1" 0).2

/-- That room's record. -/
def sampleChat1 : ChatManager.Chat :=
  (ChatManager.createChat ChatManager.init "alice" "bob" "text" "room1" 0).1

/-- Alice opened a second room while still in the first. -/
def sampleCM2 : ChatManager :=
  (ChatManager.createChat sampleCM1 "alice" "carol" "text" "room2" 1).2

/-- A manager whose per-chat message cap is zero, so a fresh room
already sits at the cap. -/
def capCM : ChatManager :=
  (ChatManager.createChat { ChatManager.init with maxMessagesPerChat := 0 } "a" "b" "text" "r1" 0).2

/-- The capped room's record. -/
def capChat : ChatManager.Chat :=
  (ChatManager.createChat { ChatManager.init with maxMessagesPerChat := 0 } "a" "b" "text" "r1" 0).1

/-- A three-operation chat trace: create a room, then two messages. -/
def sampleChatOps : List ChatManager.COp :=
  [ChatManager.COp.create "alice" "bob" "text" "room1" 0,
   ChatManager.COp.message "room1" { id := none, sender := "alice", text := "hi" } "m1" 5,
   ChatManager.COp.message "room1" { id := none, sender := "bob", text := "yo" } "m2" 6]

/-- The room after that trace. -/
def sampleChat2 : ChatManager.Chat :=
  match mget (ChatManager.runC sampleChatOps).chats "room1" with
  | some c => c
  | none => sampleChat1

/-! ### Map lemmas -/

theorem mget_mset {α : Type} (m : List (String × α)) (k k' : String) (v : α) :
    mget (mset m k v) k' = if k' = k then some v else mget m k' := by
  induction m with
  | nil =>
    by_cases h : k' = k
    · simp [mset, mget, h]
    · simp [mset, mget, h, Ne.symm h]
  | cons p m ih =>
    by_cases hp : p.1 = k
    · rw [mset, if_pos hp]
      by_cases h : k' = k
      · simp [mget, h]
      · have hk : ¬(k = k') := fun hh => h hh.symm
        have hp' : ¬(p.1 = k') := hp ▸ hk
        simp [mget, hk, hp', h]
    · rw [mset, if_neg hp]
      by_cases h2 : p.1 = k'
      · have hk : ¬(k' = k) := fun hh => hp (h2.trans hh)
        simp [mget, h2, hk]
      · simp [mget, h2, ih]

theorem mget_mset_self {α : Type} (m : List (String × α)) (k : String) (v : α) :
    mget (mset m k v) k = some v := by
  simp [mget_mset]

theorem mget_merase {α : Type} (m : List (String × α)) (k k' : String) :
    mget (merase m k) k' = if k' = k then none else mget m k' := by
  induction m with
  | nil =>
    by_cases h : k' = k <;> simp [merase, mget, h]
  | cons p m ih =>
    by_cases hp : p.1 = k
    · rw [merase, if_pos hp, ih]
      by_cases h : k' = k
      · simp [h]
      · have hp' : ¬(p.1 = k') := fun hh => h ((hp.symm.trans hh).symm)
        simp [mget, h, hp']
    · rw [merase, if_neg hp]
      by_cases h2 : p.1 = k'
      · have hk : ¬(k' = k) := fun hh => hp (h2.trans hh)
        simp [mget, h2, hk]
      · simp [mget, h2, ih]

theorem mget_eq_none_forall {α : Type} (m : List (String × α)) (k : String)
    (h : mget m k = none) : ∀ p ∈ m, p.1 ≠ k := by
  induction m with
  | nil => intro p hp; simp at hp
  | cons p m ih =>
    by_cases hp : p.1 = k
    · rw [mget, if_pos hp] at h
      exact absurd h (by simp)
    · rw [mget, if_neg hp] at h
      intro q hq
      rcases List.mem_cons.mp hq with rfl | hq2
      · exact hp
      · exact ih h q hq2

theorem mset_of_mget_none {α : Type} (m : List (String × α)) (k : String) (v : α)
    (h : mget m k = none) : mset m k v = m ++ [(k, v)] := by
  induction m with
  | nil => simp [mset]
  | cons p m ih =>
    by_cases hp : p.1 = k
    · rw [mget, if_pos hp] at h
      exact absurd h (by simp)
    · rw [mget, if_neg hp] at h
      simp [mset, hp, ih h]

/-! ### Compatibility-score symmetry (C8) -/

namespace MatchingEngine

theorem calculateGenderCompatibility_comm (e1 e2 : QueueEntry) :
    calculateGenderCompatibility e1 e2 = calculateGenderCompatibility e2 e1 := by
  simp only [calculateGenderCompatibility]
  set p1 := jsOrS e1.preferences.gender "any" with hp1
  set p2 := jsOrS e2.preferences.gender "any" with hp2
  by_cases h : p1 = "any" ∧ p2 = "any"
  · rw [if_pos h, if_pos (show p2 = "any" ∧ p1 = "any" from ⟨h.2, h.1⟩)]
  · rw [if_neg h, if_neg (show ¬(p2 = "any" ∧ p1 = "any") from fun hh => h ⟨hh.2, hh.1⟩),
      add_comm]

theorem calculateAgeCompatibility_comm (e1 e2 : QueueEntry) :
    calculateAgeCompatibility e1 e2 = calculateAgeCompatibility e2 e1 := by
  simp only [calculateAgeCompatibility]
  set a1 := e1.user.profile.age with ha1
  set a2 := e2.user.profile.age with ha2
  by_cases h1 : a1 = none ∨ a1 = some "" ∨ a2 = none ∨ a2 = some "" ∨
      a1 = some "not-specified" ∨ a2 = some "not-specified"
  · rw [if_pos h1, if_pos (show a2 = none ∨ a2 = some "" ∨ a1 = none ∨ a1 = some "" ∨
      a2 = some "not-specified" ∨ a1 = some "not-specified" by tauto)]
  · rw [if_neg h1, if_neg (show ¬(a2 = none ∨ a2 = some "" ∨ a1 = none ∨ a1 = some "" ∨
      a2 = some "not-specified" ∨ a1 = some "not-specified") by tauto)]
    by_cases h2 : a1 = a2
    · rw [if_pos h2, if_pos (show a2 = a1 from h2.symm)]
    · rw [if_neg h2, if_neg (show ¬(a2 = a1) from fun hh => h2 hh.symm), add_comm]

theorem calculateLocationCompatibility_comm (e1 e2 : QueueEntry) :
    calculateLocationCompatibility e1 e2 = calculateLocationCompatibility e2 e1 := by
  simp only [calculateLocationCompatibility]
  set o1 := e1.user.profile.location with ho1
  set o2 := e2.user.profile.location with ho2
  by_cases h1 : o1 = none ∨ o1 = some "" ∨ o2 = none ∨ o2 = some ""
  · rw [if_pos h1, if_pos (show o2 = none ∨ o2 = some "" ∨ o1 = none ∨ o1 = some "" by tauto)]
  · rw [if_neg h1, if_neg (show ¬(o2 = none ∨ o2 = some "" ∨ o1 = none ∨ o1 = some "") by tauto)]
    set l1 := (o1.getD "").toLower with hl1
    set l2 := (o2.getD "").toLower with hl2
    by_cases h2 : l1 = l2
    · rw [if_pos h2, if_pos (show l2 = l1 from h2.symm)]
    · rw [if_neg h2, if_neg (show ¬(l2 = l1) from fun hh => h2 hh.symm)]
      set c1 := ((l1.splitOn ",").headD "").trim with hc1
      set c2 := ((l2.splitOn ",").headD "").trim with hc2
      by_cases h3 : c1 = c2
      · rw [if_pos h3, if_pos (show c2 = c1 from h3.symm)]
      · rw [if_neg h3, if_neg (show ¬(c2 = c1) from fun hh => h3 hh.symm)]
        by_cases h4 : strIncludes l1 l2 ∨ strIncludes l2 l1
        · rw [if_pos h4, if_pos (show strIncludes l2 l1 ∨ strIncludes l1 l2 from Or.symm h4)]
        · rw [if_neg h4,
            if_neg (show ¬(strIncludes l2 l1 ∨ strIncludes l1 l2) from fun hh => h4 (Or.symm hh))]

theorem calculateInterestCompatibility_comm (e1 e2 : QueueEntry) :
    calculateInterestCompatibility e1 e2 = calculateInterestCompatibility e2 e1 := by
  simp only [calculateInterestCompatibility]
  set k1 := e1.user.profile.keywords.getD [] with hk1
  set k2 := e2.user.profile.keywords.getD [] with hk2
  by_cases h1 : k1.length = 0 ∧ k2.length = 0
  · rw [if_pos h1, if_pos (show k2.length = 0 ∧ k1.length = 0 from ⟨h1.2, h1.1⟩)]
  · rw [if_neg h1, if_neg (show ¬(k2.length = 0 ∧ k1.length = 0) from fun hh => h1 ⟨hh.2, hh.1⟩)]
    by_cases h2 : k1.length = 0 ∨ k2.length = 0
    · rw [if_pos h2, if_pos (show k2.length = 0 ∨ k1.length = 0 from Or.symm h2)]
    · rw [if_neg h2, if_neg (show ¬(k2.length = 0 ∨ k1.length = 0) from fun hh => h2 (Or.symm hh))]
      rw [Finset.inter_comm, Finset.union_comm]

theorem calculateTrustCompatibility_comm (e1 e2 : QueueEntry) :
    calculateTrustCompatibility e1 e2 = calculateTrustCompatibility e2 e1 := by
  simp only [calculateTrustCompatibility]
  rw [abs_sub_comm, add_comm]

/-- C8: the compatibility score is symmetric: for every pair of queue
entries (with their profiles, preferences and trust scores),
`calculateCompatibility e1 e2 = calculateCompatibility e2 e1`. -/
theorem calculateCompatibility_symm (e1 e2 : QueueEntry) :
    calculateCompatibility e1 e2 = calculateCompatibility e2 e1 := by
  simp only [calculateCompatibility]
  rw [calculateGenderCompatibility_comm, calculateAgeCompatibility_comm,
    calculateLocationCompatibility_comm, calculateInterestCompatibility_comm,
    calculateTrustCompatibility_comm]

end MatchingEngine

/-! ### Enqueue idempotence (C3) -/

namespace MatchingEngine

theorem addToQueue_of_present (eng : MatchingEngine) (user : UserManager.UMUser)
    (p : RawPrefs) (eid : String) (t : Nat) (e : QueueEntry)
    (h : mget eng.matchingQueue user.id = some e) :
    addToQueue eng user p eid t = .ok (e, eng) := by
  simp [addToQueue, h]

theorem enqueueMany_of_present (eng : MatchingEngine) (user : UserManager.UMUser)
    (e : QueueEntry) (h : mget eng.matchingQueue user.id = some e)
    (calls : List (RawPrefs × String × Nat)) :
    enqueueMany eng user calls = eng := by
  induction calls with
  | nil => rfl
  | cons c rest ih =>
    obtain ⟨p, eid, t⟩ := c
    rw [enqueueMany, addToQueue_of_present eng user p eid t e h]
    exact ih

/-- C3: enqueue is idempotent. After a first successful `addToQueue`
for a user not yet queued, the stored entry keeps the first call's
`queuedAt`; every later `addToQueue` for the same user — with any
preferences, entry id and clock — returns that same entry and leaves
the engine state untouched, and the queue holds exactly one entry for
that user. -/
theorem addToQueue_idempotent (eng : MatchingEngine) (user : UserManager.UMUser)
    (preferences p2 : RawPrefs) (entryId eid2 : String) (now t2 : Nat)
    (calls : List (RawPrefs × String × Nat))
    (e : QueueEntry) (eng1 : MatchingEngine)
    (h0 : mget eng.matchingQueue user.id = none)
    (hcap : eng.matchingQueue.length < eng.maxQueueSize)
    (h1 : addToQueue eng user preferences entryId now = .ok (e, eng1)) :
    e.queuedAt = now ∧
    mget eng1.matchingQueue user.id = some e ∧
    addToQueue eng1 user p2 eid2 t2 = .ok (e, eng1) ∧
    enqueueMany eng1 user calls = eng1 ∧
    eng1.matchingQueue.countP (fun p => decide (p.1 = user.id)) = 1 := by
  rw [addToQueue, h0] at h1
  rw [if_neg (not_le.mpr hcap)] at h1
  simp only [Except.ok.injEq, Prod.mk.injEq] at h1
  obtain ⟨he, heng⟩ := h1
  subst he
  subst heng
  have hget : mget (mset eng.matchingQueue user.id
      { id := entryId, userId := user.id, user := user,
        preferences := sanitizePreferences preferences, queuedAt := now, attempts := 0,
        lastAttempt := none, priority := calculatePriority user now,
        requirements := extractRequirements preferences,
        flexibility := calculateFlexibility preferences }) user.id = some
      { id := entryId, userId := user.id, user := user,
        preferences := sanitizePreferences preferences, queuedAt := now, attempts := 0,
        lastAttempt := none, priority := calculatePriority user now,
        requirements := extractRequirements preferences,
        flexibility := calculateFlexibility preferences } := mget_mset_self _ _ _
  refine ⟨rfl, hget, addToQueue_of_present _ _ _ _ _ _ hget,
    enqueueMany_of_present _ _ _ hget calls, ?_⟩
  rw [mset_of_mget_none _ _ _ h0, List.countP_append]
  have hzero : eng.matchingQueue.countP (fun p => decide (p.1 = user.id)) = 0 := by
    rw [List.countP_eq_zero]
    intro p hp
    simpa using mget_eq_none_forall _ _ h0 p hp
  simp [hzero, List.countP_cons]

/-- Witness for C3: a concrete first enqueue at time 5, followed by a
re-enqueue at time 9 and two batched re-enqueues. -/
theorem addToQueue_idempotent_witness :
    mget MatchingEngine.init.matchingQueue sampleUser.id = none ∧
    MatchingEngine.init.matchingQueue.length < MatchingEngine.init.maxQueueSize ∧
    addToQueue MatchingEngine.init sampleUser samplePrefs "entry-1" 5 =
      .ok (sampleQueueRes.1, sampleQueueRes.2) ∧
    (sampleQueueRes.1.queuedAt = 5 ∧
      mget sampleQueueRes.2.matchingQueue sampleUser.id = some sampleQueueRes.1 ∧
      addToQueue sampleQueueRes.2 sampleUser samplePrefs "entry-2" 9 =
        .ok (sampleQueueRes.1, sampleQueueRes.2) ∧
      enqueueMany sampleQueueRes.2 sampleUser
        [(samplePrefs, "entry-3", 11), (samplePrefs, "entry-4", 12)] = sampleQueueRes.2 ∧
      sampleQueueRes.2.matchingQueue.countP (fun p => decide (p.1 = sampleUser.id)) = 1) :=
  ⟨rfl, by decide,
    rfl,
    addToQueue_idempotent MatchingEngine.init sampleUser samplePrefs samplePrefs
      "entry-1" "entry-2" 5 9 [(samplePrefs, "entry-3", 11), (samplePrefs, "entry-4", 12)]
      sampleQueueRes.1 sampleQueueRes.2 rfl (by decide) rfl⟩

end MatchingEngine

/-! ### Sanitizer totality (C5) -/

namespace UserManager

theorem toStr_isSome_of_ne (v : JSVal) (h1 : v ≠ JSVal.undef) (h2 : v ≠ JSVal.null) :
    (JSVal.toStr v).isSome = true := by
  cases v <;> simp [JSVal.toStr] at h1 h2 ⊢

theorem mapKeywordStrings_isSome (xs : List JSVal)
    (h : ∀ v ∈ xs, v ≠ JSVal.undef ∧ v ≠ JSVal.null) :
    (mapKeywordStrings xs).isSome = true := by
  induction xs with
  | nil => rfl
  | cons k ks ih =>
    obtain ⟨h1, h2⟩ := h k (List.mem_cons_self k ks)
    have hts := toStr_isSome_of_ne k h1 h2
    obtain ⟨t, ht⟩ := Option.isSome_iff_exists.mp hts
    have hrest := ih (fun v hv => h v (List.mem_cons_of_mem k hv))
    obtain ⟨ts, hts2⟩ := Option.isSome_iff_exists.mp hrest
    simp [mapKeywordStrings, ht, hts2]

theorem sanitizeGender_isSome (gender : JSVal)
    (hg : gender.truthy = true → ∃ s, gender = JSVal.str s) :
    (sanitizeGender gender).isSome = true := by
  by_cases ht : gender.truthy = true
  · obtain ⟨g, hgs⟩ := hg ht
    subst hgs
    simp [sanitizeGender, ht]
  · simp [sanitizeGender, ht]

theorem sanitizeLocation_isSome (location : JSVal) :
    (sanitizeLocation location).isSome = true := by
  cases location <;> simp [sanitizeLocation, JSVal.truthy, JSVal.toStr] <;> split_ifs <;> simp

theorem sanitizeKeywords_isSome (keywords : JSVal)
    (hk : ∀ xs, keywords = JSVal.arr xs → ∀ v ∈ xs, v ≠ JSVal.undef ∧ v ≠ JSVal.null) :
    (sanitizeKeywords keywords).isSome = true := by
  cases keywords with
  | arr xs =>
    have hs := mapKeywordStrings_isSome xs (hk xs rfl)
    obtain ⟨ts, hts⟩ := Option.isSome_iff_exists.mp hs
    simp [sanitizeKeywords, JSVal.truthy, hts]
  | undef => simp [sanitizeKeywords, JSVal.truthy]
  | null => simp [sanitizeKeywords, JSVal.truthy]
  | bool b => cases b <;> simp [sanitizeKeywords, JSVal.truthy]
  | num q => by_cases hq : q = 0 <;> simp [sanitizeKeywords, JSVal.truthy, hq]
  | str t => by_cases ht : t = "" <;> simp [sanitizeKeywords, JSVal.truthy, ht]

/-- C5 counterexample: the numeric gender `42` is truthy but has no
`toLowerCase` method, so `sanitizeProfile` throws (returns `none`)
instead of canonicalizing — the normalizer is not total. -/
theorem sanitizeProfile_throws_on_numeric_gender :
    sanitizeProfile
      { gender := JSVal.num 42, location := .undef, age := .undef, keywords := .undef,
        preferredGender := .undef, preferredAgeRange := .undef, preferredLocation := .undef }
      = none := rfl

/-- C5 amended: the normalizer is total on every input whose `gender`
field, when truthy, is a string, and whose `keywords` field, when an
array, contains no `null`/`undefined` element; on such inputs it always
returns a canonical profile. (Other field types never throw.) -/
theorem sanitizeProfile_total_amended (p : RawProfile)
    (hg : p.gender.truthy = true → ∃ s, p.gender = JSVal.str s)
    (hk : ∀ xs, p.keywords = JSVal.arr xs → ∀ v ∈ xs, v ≠ JSVal.undef ∧ v ≠ JSVal.null) :
    (sanitizeProfile p).isSome = true := by
  obtain ⟨g, hgeq⟩ := Option.isSome_iff_exists.mp (sanitizeGender_isSome p.gender hg)
  obtain ⟨l, hleq⟩ := Option.isSome_iff_exists.mp (sanitizeLocation_isSome p.location)
  obtain ⟨k, hkeq⟩ := Option.isSome_iff_exists.mp (sanitizeKeywords_isSome p.keywords hk)
  simp [sanitizeProfile, hgeq, hleq, hkeq]

/-- Witness for C5 amended: a profile with string gender, numeric
location, string age and a mixed keyword array normalizes. -/
theorem sanitizeProfile_total_amended_witness :
    ((JSVal.str "MALE").truthy = true → ∃ s, JSVal.str "MALE" = JSVal.str s) ∧
    (∀ xs, JSVal.arr [JSVal.str " chess ", JSVal.num 7] = JSVal.arr xs →
      ∀ v ∈ xs, v ≠ JSVal.undef ∧ v ≠ JSVal.null) ∧
    (sanitizeProfile
      { gender := JSVal.str "MALE", location := JSVal.num 3, age := JSVal.str "18-25",
        keywords := JSVal.arr [JSVal.str " chess ", JSVal.num 7],
        preferredGender := .undef, preferredAgeRange := .undef,
        preferredLocation := .undef }).isSome = true := by
  have hkcond : ∀ xs, JSVal.arr [JSVal.str " chess ", JSVal.num 7] = JSVal.arr xs →
      ∀ v ∈ xs, v ≠ JSVal.undef ∧ v ≠ JSVal.null := by
    intro xs hxs v hv
    injection hxs with h
    subst h
    rcases List.mem_cons.mp hv with rfl | hv2
    · exact ⟨fun h => JSVal.noConfusion h, fun h => JSVal.noConfusion h⟩
    · rcases List.mem_cons.mp hv2 with rfl | hv3
      · exact ⟨fun h => JSVal.noConfusion h, fun h => JSVal.noConfusion h⟩
      · exact absurd hv3 (List.not_mem_nil v)
  exact ⟨fun _ => ⟨"MALE", rfl⟩, hkcond,
    sanitizeProfile_total_amended _ (fun _ => ⟨"MALE", rfl⟩) hkcond⟩

end UserManager

/-! ### Flagging semantics (C4) -/

namespace UserManager

/-- C4: for a registered user, `flagUser` appends exactly one violation
record, lowers the trust score by exactly 0.1 floored at 0.0, and sets
the banned flag exactly when, after the updates, the violation counter
is at least 5 or the trust score is at most 0.3 (an already-set ban is
kept). -/
theorem flagUser_spec (um : UserManager) (userId violationType : String) (now : Nat)
    (user : UMUser) (h : mget um.users userId = some user) :
    ((mget (flagUser um userId violationType now).users userId).map
        (fun u => u.violations)) =
      some (user.violations ++
        [{ vtype := violationType, timestamp := now, severity := getViolationSeverity violationType }]) ∧
    ((mget (flagUser um userId violationType now).users userId).map
        (fun u => u.flags.trustScore)) =
      some (max 0 (user.flags.trustScore - 1/10)) ∧
    (0 : ℚ) ≤ max 0 (user.flags.trustScore - 1/10) ∧
    (1/10 ≤ user.flags.trustScore →
      max 0 (user.flags.trustScore - 1/10) = user.flags.trustScore - 1/10) ∧
    ((mget (flagUser um userId violationType now).users userId).map
        (fun u => u.flags.isBanned)) =
      some (user.flags.isBanned ||
        (decide (5 ≤ user.stats.violations + 1) ||
         decide (max 0 (user.flags.trustScore - 1/10) ≤ 3/10))) := by
  have hfloor : (1/10 ≤ user.flags.trustScore →
      max 0 (user.flags.trustScore - 1/10) = user.flags.trustScore - 1/10) := by
    intro hge
    exact max_eq_right (by linarith)
  simp only [flagUser, h]
  split_ifs with hc
  · simp only [banUser, mget_mset_self]
    refine ⟨by simp [mget_mset_self], by simp [mget_mset_self], le_max_left 0 _, hfloor, ?_⟩
    have hdec : (decide (5 ≤ user.stats.violations + 1) ||
        decide (max 0 (user.flags.trustScore - 1/10) ≤ 3/10)) = true := by
      rcases hc with hc | hc
      · simp only [decide_eq_true hc, Bool.true_or]
      · simp only [decide_eq_true hc, Bool.or_true]
    rw [hdec, Bool.or_true]
    rfl
  · rw [not_or] at hc
    refine ⟨by simp [mget_mset_self], by simp [mget_mset_self], le_max_left 0 _, hfloor, ?_⟩
    have hdec : (decide (5 ≤ user.stats.violations + 1) ||
        decide (max 0 (user.flags.trustScore - 1/10) ≤ 3/10)) = false := by
      simp only [decide_eq_false hc.1, decide_eq_false hc.2, Bool.or_false]
    rw [hdec, Bool.or_false, mget_mset_self]
    rfl

/-- Witness for C4: flagging the freshly created sample user for spam. -/
theorem flagUser_spec_witness :
    mget sampleUM.users "u1" = some sampleCreatedUser ∧
    (((mget (flagUser sampleUM "u1" "spam" 3).users "u1").map
        (fun u => u.violations)) =
      some (sampleCreatedUser.violations ++
        [{ vtype := "spam", timestamp := 3, severity := getViolationSeverity "spam" }]) ∧
    ((mget (flagUser sampleUM "u1" "spam" 3).users "u1").map
        (fun u => u.flags.trustScore)) =
      some (max 0 (sampleCreatedUser.flags.trustScore - 1/10)) ∧
    (0 : ℚ) ≤ max 0 (sampleCreatedUser.flags.trustScore - 1/10) ∧
    (1/10 ≤ sampleCreatedUser.flags.trustScore →
      max 0 (sampleCreatedUser.flags.trustScore - 1/10) =
        sampleCreatedUser.flags.trustScore - 1/10) ∧
    ((mget (flagUser sampleUM "u1" "spam" 3).users "u1").map
        (fun u => u.flags.isBanned)) =
      some (sampleCreatedUser.flags.isBanned ||
        (decide (5 ≤ sampleCreatedUser.stats.violations + 1) ||
         decide (max 0 (sampleCreatedUser.flags.trustScore - 1/10) ≤ 3/10)))) :=
  ⟨rfl, flagUser_spec sampleUM "u1" "spam" 3 sampleCreatedUser rfl⟩

end UserManager

/-! ### Per-operation effect on user records (C9, C10) -/

namespace UserManager

theorem bySocketId_sound (um : UserManager) (sid : String) (w : UMUser)
    (hid : idOk um) (hby : bySocketId um sid = some w) :
    mget um.users w.id = some w := by
  unfold bySocketId at hby
  cases hkey : mget um.bySocket sid with
  | none => rw [hkey] at hby; cases hby
  | some wid =>
    rw [hkey] at hby
    rw [hid wid w hby]
    exact hby

theorem mget_removeUser (um : UserManager) (sid uid : String) (u2 : UMUser)
    (h : mget (removeUser um sid).users uid = some u2) :
    mget um.users uid = some u2 := by
  unfold removeUser at h
  cases hby : bySocketId um sid with
  | none => rw [hby] at h; exact h
  | some w =>
    rw [hby] at h
    simp only at h
    rw [mget_merase] at h
    by_cases hu : uid = w.id
    · rw [if_pos hu] at h; cases h
    · rw [if_neg hu] at h; exact h

theorem mget_removeFold (l : List (String × UMUser)) (um : UserManager)
    (uid : String) (u2 : UMUser)
    (h : mget ((l.foldl (fun acc p => removeUser acc p.2.socketId) um)).users uid = some u2) :
    mget um.users uid = some u2 := by
  induction l generalizing um with
  | nil => exact h
  | cons p l ih => exact mget_removeUser _ _ _ _ (ih _ h)

theorem mget_cleanup (um : UserManager) (th t : Nat) (uid : String) (u2 : UMUser)
    (h : mget (cleanupInactiveUsers um th t).users uid = some u2) :
    mget um.users uid = some u2 := by
  unfold cleanupInactiveUsers at h
  exact mget_removeFold _ _ _ _ h

/-- How one operation acts on the record stored under `uid`: either the
user was already registered and the operation kept the id, never
cleared a ban, and either kept the trust score or applied the flag
decrement — or the operation is the `create` that installed `uid`,
seeding trust 1.0 and no ban. -/
theorem stepU_effect (op : UOp) (um : UserManager) (uid : String) (u2 : UMUser)
    (hid : idOk um)
    (h2 : mget (stepU op um).users uid = some u2) :
    (∃ u, mget um.users uid = some u ∧ u2.id = u.id ∧
      (u.flags.isBanned = true → u2.flags.isBanned = true) ∧
      (u2.flags.trustScore = u.flags.trustScore ∨
       u2.flags.trustScore = max 0 (u.flags.trustScore - 1/10))) ∨
    (∃ sid p tnow, op = UOp.create sid p uid tnow ∧ u2.id = uid ∧
      u2.flags.trustScore = 1 ∧ u2.flags.isBanned = false) := by
  cases op with
  | create sid p uid2 t =>
    simp only [stepU, createUser] at h2
    cases hsan : sanitizeProfile p with
    | none =>
      rw [hsan] at h2
      exact Or.inl ⟨u2, h2, rfl, fun hb => hb, Or.inl rfl⟩
    | some sp =>
      rw [hsan] at h2
      simp only at h2
      rw [mget_mset] at h2
      by_cases hu : uid = uid2
      · subst hu
        rw [if_pos rfl] at h2
        injection h2 with h3
        subst h3
        exact Or.inr ⟨sid, p, t, rfl, rfl, rfl, rfl⟩
      · rw [if_neg hu] at h2
        exact Or.inl ⟨u2, h2, rfl, fun hb => hb, Or.inl rfl⟩
  | remove sid =>
    exact Or.inl ⟨u2, mget_removeUser um sid uid u2 h2, rfl, fun hb => hb, Or.inl rfl⟩
  | touch sid t =>
    simp only [stepU, updateActivity] at h2
    cases hby : bySocketId um sid with
    | none =>
      rw [hby] at h2
      exact Or.inl ⟨u2, h2, rfl, fun hb => hb, Or.inl rfl⟩
    | some w =>
      rw [hby] at h2
      simp only at h2
      rw [mget_mset] at h2
      by_cases hu : uid = w.id
      · rw [if_pos hu] at h2
        injection h2 with h3
        subst h3
        refine Or.inl ⟨w, ?_, rfl, fun hb => hb, Or.inl rfl⟩
        rw [hu]
        exact bySocketId_sound um sid w hid hby
      · rw [if_neg hu] at h2
        exact Or.inl ⟨u2, h2, rfl, fun hb => hb, Or.inl rfl⟩
  | profileUpd sid upd t =>
    simp only [stepU, updateProfile] at h2
    cases hby : bySocketId um sid with
    | none =>
      rw [hby] at h2
      exact Or.inl ⟨u2, h2, rfl, fun hb => hb, Or.inl rfl⟩
    | some w =>
      rw [hby] at h2
      cases hsan : sanitizeProfile upd with
      | none =>
        rw [hsan] at h2
        exact Or.inl ⟨u2, h2, rfl, fun hb => hb, Or.inl rfl⟩
      | some spUpd =>
        rw [hsan] at h2
        simp only at h2
        rw [mget_mset] at h2
        by_cases hu : uid = w.id
        · rw [if_pos hu] at h2
          injection h2 with h3
          subst h3
          refine Or.inl ⟨w, ?_, rfl, fun hb => hb, Or.inl rfl⟩
          rw [hu]
          exact bySocketId_sound um sid w hid hby
        · rw [if_neg hu] at h2
          exact Or.inl ⟨u2, h2, rfl, fun hb => hb, Or.inl rfl⟩
  | bindRoom sid cid t =>
    simp only [stepU, setCurrentChat] at h2
    cases hby : bySocketId um sid with
    | none =>
      rw [hby] at h2
      exact Or.inl ⟨u2, h2, rfl, fun hb => hb, Or.inl rfl⟩
    | some w =>
      rw [hby] at h2
      simp only at h2
      rw [mget_mset] at h2
      by_cases hu : uid = w.id
      · rw [if_pos hu] at h2
        injection h2 with h3
        subst h3
        refine Or.inl ⟨w, ?_, rfl, fun hb => hb, Or.inl rfl⟩
        rw [hu]
        exact bySocketId_sound um sid w hid hby
      · rw [if_neg hu] at h2
        exact Or.inl ⟨u2, h2, rfl, fun hb => hb, Or.inl rfl⟩
  | unbindRoom sid t =>
    simp only [stepU, clearCurrentChat] at h2
    cases hby : bySocketId um sid with
    | none =>
      rw [hby] at h2
      exact Or.inl ⟨u2, h2, rfl, fun hb => hb, Or.inl rfl⟩
    | some w =>
      rw [hby] at h2
      simp only at h2
      rw [mget_mset] at h2
      by_cases hu : uid = w.id
      · rw [if_pos hu] at h2
        injection h2 with h3
        subst h3
        refine Or.inl ⟨w, ?_, rfl, fun hb => hb, Or.inl rfl⟩
        rw [hu]
        exact bySocketId_sound um sid w hid hby
      · rw [if_neg hu] at h2
        exact Or.inl ⟨u2, h2, rfl, fun hb => hb, Or.inl rfl⟩
  | statsUpd sid upd t =>
    simp only [stepU, updateStats] at h2
    cases hby : bySocketId um sid with
    | none =>
      rw [hby] at h2
      exact Or.inl ⟨u2, h2, rfl, fun hb => hb, Or.inl rfl⟩
    | some w =>
      rw [hby] at h2
      simp only at h2
      rw [mget_mset] at h2
      by_cases hu : uid = w.id
      · rw [if_pos hu] at h2
        injection h2 with h3
        subst h3
        refine Or.inl ⟨w, ?_, rfl, fun hb => hb, Or.inl rfl⟩
        rw [hu]
        exact bySocketId_sound um sid w hid hby
      · rw [if_neg hu] at h2
        exact Or.inl ⟨u2, h2, rfl, fun hb => hb, Or.inl rfl⟩
  | flag uid2 vt t =>
    simp only [stepU, flagUser] at h2
    cases hw : mget um.users uid2 with
    | none =>
      rw [hw] at h2
      exact Or.inl ⟨u2, h2, rfl, fun hb => hb, Or.inl rfl⟩
    | some w =>
      rw [hw] at h2
      simp only at h2
      split at h2
      · -- auto-ban branch
        simp only [banUser, mget_mset_self] at h2
        rw [mget_mset] at h2
        by_cases hu : uid = uid2
        · rw [if_pos hu] at h2
          injection h2 with h3
          subst h3
          refine Or.inl ⟨w, ?_, rfl, fun _ => rfl, Or.inr rfl⟩
          rw [hu]
          exact hw
        · rw [if_neg hu] at h2
          rw [mget_mset, if_neg hu] at h2
          exact Or.inl ⟨u2, h2, rfl, fun hb => hb, Or.inl rfl⟩
      · rw [mget_mset] at h2
        by_cases hu : uid = uid2
        · rw [if_pos hu] at h2
          injection h2 with h3
          subst h3
          refine Or.inl ⟨w, ?_, rfl, fun hb => hb, Or.inr rfl⟩
          rw [hu]
          exact hw
        · rw [if_neg hu] at h2
          exact Or.inl ⟨u2, h2, rfl, fun hb => hb, Or.inl rfl⟩
  | ban uid2 r t =>
    simp only [stepU, banUser] at h2
    cases hw : mget um.users uid2 with
    | none =>
      rw [hw] at h2
      exact Or.inl ⟨u2, h2, rfl, fun hb => hb, Or.inl rfl⟩
    | some w =>
      rw [hw] at h2
      simp only at h2
      rw [mget_mset] at h2
      by_cases hu : uid = uid2
      · rw [if_pos hu] at h2
        injection h2 with h3
        subst h3
        refine Or.inl ⟨w, ?_, rfl, fun _ => rfl, Or.inl rfl⟩
        rw [hu]
        exact hw
      · rw [if_neg hu] at h2
        exact Or.inl ⟨u2, h2, rfl, fun hb => hb, Or.inl rfl⟩
  | cleanup th t =>
    exact Or.inl ⟨u2, mget_cleanup um th t uid u2 h2, rfl, fun hb => hb, Or.inl rfl⟩

end UserManager

namespace UserManager

theorem runU_append_singleton (ops : List UOp) (op : UOp) :
    runU (ops ++ [op]) = stepU op (runU ops) := by
  simp [runU, List.foldl_append]

theorem idOk_step (op : UOp) (um : UserManager) (hid : idOk um) : idOk (stepU op um) := by
  intro uid u2 h2
  rcases stepU_effect op um uid u2 hid h2 with ⟨u, hu, hide, _, _⟩ | ⟨_, _, _, _, hide, _, _⟩
  · rw [hide]
    exact hid uid u hu
  · exact hide

theorem idOk_runU (ops : List UOp) : idOk (runU ops) := by
  induction ops using List.reverseRecOn with
  | nil => intro uid w h; simp [runU, init, mget] at h
  | append_singleton ops op ih =>
    rw [runU_append_singleton]
    exact idOk_step op _ ih

theorem trust_nonneg_runU (ops : List UOp) (uid : String) (u : UMUser)
    (h : mget (runU ops).users uid = some u) : 0 ≤ u.flags.trustScore := by
  induction ops using List.reverseRecOn generalizing uid u with
  | nil => simp [runU, init, mget] at h
  | append_singleton ops op ih =>
    rw [runU_append_singleton] at h
    rcases stepU_effect op (runU ops) uid u (idOk_runU ops) h with
      ⟨w, hw, _, _, htr | htr⟩ | ⟨_, _, _, _, _, htr, _⟩
    · rw [htr]
      exact ih uid w hw
    · rw [htr]
      exact le_max_left 0 _
    · rw [htr]
      norm_num

/-- C9: the trust score is seeded at 1.0 by `createUser` and is
non-increasing under every `UserManager` operation: for any reachable
state and any next operation, a user registered before and after the
operation never sees the trust score rise. -/
theorem trustScore_monotone (ops : List UOp) (op : UOp) (uid uid2 sid2 : String)
    (p2 : RawProfile) (tnow : Nat) (u u2 u3 : UMUser)
    (h1 : mget (runU ops).users uid = some u)
    (h2 : mget (stepU op (runU ops)).users uid = some u2)
    (hfresh : freshOk op (runU ops) = true) :
    u2.flags.trustScore ≤ u.flags.trustScore ∧
    (freshOk (UOp.create sid2 p2 uid2 tnow) (runU ops) = true →
      mget (stepU (UOp.create sid2 p2 uid2 tnow) (runU ops)).users uid2 = some u3 →
      u3.flags.trustScore = 1) := by
  constructor
  · rcases stepU_effect op (runU ops) uid u2 (idOk_runU ops) h2 with
      ⟨w, hw, _, _, htr | htr⟩ | ⟨sid, p, t, hop, _, _, _⟩
    · rw [hw] at h1
      injection h1 with he
      rw [htr, he]
    · have hnn : 0 ≤ u.flags.trustScore := trust_nonneg_runU ops uid u h1
      rw [hw] at h1
      injection h1 with he
      rw [htr, he]
      exact max_le hnn (by linarith)
    · subst hop
      simp only [freshOk] at hfresh
      rw [h1] at hfresh
      simp at hfresh
  · intro hf2 h3
    rcases stepU_effect _ (runU ops) uid2 u3 (idOk_runU ops) h3 with
      ⟨w, hw, _, _, _⟩ | ⟨_, _, _, _, _, htr, _⟩
    · simp only [freshOk] at hf2
      rw [hw] at hf2
      simp at hf2
    · exact htr

theorem sampleFlagged_eq :
    mget (stepU (UOp.flag "u1" "spam" 3) (runU sampleOps)).users "u1" =
      some sampleFlaggedUser := by
  have hstep : stepU (UOp.flag "u1" "spam" 3) (runU sampleOps) =
      flagUser sampleUM "u1" "spam" 3 := rfl
  rw [hstep]
  have hmax : (0 : ℚ) ⊔ (1 - 1/10) = 9/10 := by
    rw [max_eq_right]
    · norm_num
    · norm_num
  simp only [flagUser, show mget sampleUM.users "u1" = some sampleCreatedUser from rfl,
    show sampleCreatedUser.stats.violations = 0 from rfl,
    show sampleCreatedUser.flags.trustScore = 1 from rfl]
  rw [if_neg]
  · exact (mget_mset_self sampleUM.users "u1" _).trans (by rfl)
  · rintro (h | h)
    · omega
    · rw [hmax] at h
      norm_num at h

/-- Witness for C9: the sample user is created with trust 1.0 at time
0 and flagged at time 3, after which the score has not increased; a
second fresh creation again seeds 1.0. -/
theorem trustScore_monotone_witness :
    mget (runU sampleOps).users "u1" = some sampleCreatedUser ∧
    mget (stepU (UOp.flag "u1" "spam" 3) (runU sampleOps)).users "u1" = some sampleFlaggedUser ∧
    freshOk (UOp.flag "u1" "spam" 3) (runU sampleOps) = true ∧
    (sampleFlaggedUser.flags.trustScore ≤ sampleCreatedUser.flags.trustScore ∧
      (freshOk (UOp.create "s2" RawProfile.empty "u2" 7) (runU sampleOps) = true →
        mget (stepU (UOp.create "s2" RawProfile.empty "u2" 7) (runU sampleOps)).users "u2" =
          some sampleUser2 →
        sampleUser2.flags.trustScore = 1)) :=
  ⟨rfl, sampleFlagged_eq, rfl,
    trustScore_monotone sampleOps (UOp.flag "u1" "spam" 3) "u1" "u2" "s2"
      RawProfile.empty 7 sampleCreatedUser sampleFlaggedUser sampleUser2 rfl sampleFlagged_eq rfl⟩

/-- C10: bans are permanent for the registered session: in any
reachable state holding a banned user, after any further operation that
keeps the user registered, `isUserBanned` still reports `true`. -/
theorem ban_permanent (ops : List UOp) (op : UOp) (uid : String) (u u2 : UMUser)
    (h1 : mget (runU ops).users uid = some u)
    (hb : u.flags.isBanned = true)
    (h2 : mget (stepU op (runU ops)).users uid = some u2)
    (hfresh : freshOk op (runU ops) = true) :
    isUserBanned (stepU op (runU ops)) uid = true := by
  have hban : u2.flags.isBanned = true := by
    rcases stepU_effect op (runU ops) uid u2 (idOk_runU ops) h2 with
      ⟨w, hw, _, hbi, _⟩ | ⟨sid, p, t, hop, _, _, _⟩
    · rw [hw] at h1
      injection h1 with he
      subst he
      exact hbi hb
    · subst hop
      simp only [freshOk] at hfresh
      rw [h1] at hfresh
      simp at hfresh
  simp only [isUserBanned, h2]
  exact hban

/-- Witness for C10: the sample user is banned at time 1; after an
activity touch at time 5 the ban is still reported. -/
theorem ban_permanent_witness :
    mget (runU sampleBanOps).users "u1" = some sampleBannedUser ∧
    sampleBannedUser.flags.isBanned = true ∧
    mget (stepU (UOp.touch "s1" 5) (runU sampleBanOps)).users "u1" =
      some sampleBannedTouchedUser ∧
    freshOk (UOp.touch "s1" 5) (runU sampleBanOps) = true ∧
    isUserBanned (stepU (UOp.touch "s1" 5) (runU sampleBanOps)) "u1" = true :=
  ⟨rfl, rfl, rfl, rfl,
    ban_permanent sampleBanOps (UOp.touch "s1" 5) "u1" sampleBannedUser
      sampleBannedTouchedUser rfl rfl rfl rfl⟩

end UserManager

/-! ### Room termination (C1) and message admission (C7) -/

namespace ChatManager

theorem endChat_of_none (cm : ChatManager) (cid reason : String) (who : Option String)
    (now : Nat) (h : mget cm.chats cid = none) :
    endChat cm cid reason who now = (false, cm) := by
  simp [endChat, h]

theorem endChat_chats (cm : ChatManager) (cid reason : String) (who : Option String)
    (now : Nat) (chat : Chat) (h : mget cm.chats cid = some chat) :
    (endChat cm cid reason who now).1 = true ∧
    (endChat cm cid reason who now).2.chats = merase cm.chats cid := by
  simp [endChat, h]

/-- C1 counterexample: after a successful `endChat` (returning `true`)
the room is deleted, so the second call returns `false`, not the first
call's result — ending is not idempotent in its return value. -/
theorem endChat_second_call_differs :
    (endChat sampleCM1 "room1" "user_action" (some "alice") 10).1 = true ∧
    (endChat (endChat sampleCM1 "room1" "user_action" (some "alice") 10).2
      "room1" "user_action" (some "alice") 20).1 = false :=
  ⟨rfl, rfl⟩

/-- C1 amended: a first `endChat` on a live room returns `true`; any
second `endChat` on the same room — whatever reason, actor or clock —
returns `false` and performs no state change at all (no room,
user-to-room, history or analytics mutation). -/
theorem endChat_second_call (cm : ChatManager) (cid reason reason2 : String)
    (who who2 : Option String) (now now2 : Nat) (chat : Chat)
    (h : mget cm.chats cid = some chat) :
    (endChat cm cid reason who now).1 = true ∧
    endChat (endChat cm cid reason who now).2 cid reason2 who2 now2 =
      (false, (endChat cm cid reason who now).2) := by
  obtain ⟨h1, h2⟩ := endChat_chats cm cid reason who now chat h
  refine ⟨h1, ?_⟩
  apply endChat_of_none
  rw [h2, mget_merase]
  simp

/-- Witness for C1 amended: end the sample room at time 10, then try
again at time 20 with a different reason. -/
theorem endChat_second_call_witness :
    mget sampleCM1.chats "room1" = some sampleChat1 ∧
    ((endChat sampleCM1 "room1" "user_action" (some "alice") 10).1 = true ∧
      endChat (endChat sampleCM1 "room1" "user_action" (some "alice") 10).2
        "room1" "stranger_disconnected" none 20 =
        (false, (endChat sampleCM1 "room1" "user_action" (some "alice") 10).2)) :=
  ⟨rfl, endChat_second_call sampleCM1 "room1" "user_action" "stranger_disconnected"
    (some "alice") none 10 20 sampleChat1 rfl⟩

/-- C7 counterexample: the sender is never checked — a message from
`carol`, who is not a participant of the alice/bob room, is accepted. -/
theorem addMessage_accepts_non_participant :
    ((mget sampleCM1.chats "room1").map (fun c => c.participants)) = some ["alice", "bob"] ∧
    (addMessage sampleCM1 "room1" { id := none, sender := "carol", text := "hi" } "m1" 5).1 = true :=
  ⟨rfl, rfl⟩

/-- C7 amended: `addMessage` succeeds exactly when the room exists in
state `active` with fewer than `maxMessages` stored messages — sender
participation is not checked and all failures return `false` rather
than distinct error codes. A missing or non-active room leaves the
state unchanged; at the cap the call fails and auto-ends the room with
reason `message_limit_reached` (removing it from the live map). -/
theorem addMessage_spec (cm cm2 : ChatManager) (cid cid2 : String) (message : MsgIn)
    (fid : String) (now : Nat) (chat : Chat)
    (h : mget cm.chats cid = some chat)
    (h2 : mget cm2.chats cid2 = none) :
    ((addMessage cm cid message fid now).1 = true ↔
      (chat.status = "active" ∧ chat.messages.length < chat.settings.maxMessages)) ∧
    (chat.status ≠ "active" → addMessage cm cid message fid now = (false, cm)) ∧
    (chat.status = "active" → chat.settings.maxMessages ≤ chat.messages.length →
      ((addMessage cm cid message fid now).2 = (endChat cm cid "message_limit_reached" none now).2 ∧
       mget ((addMessage cm cid message fid now).2).chats cid = none)) ∧
    addMessage cm2 cid2 message fid now = (false, cm2) := by
  refine ⟨?_, ?_, ?_, by simp [addMessage, h2]⟩
  · by_cases hs : chat.status = "active"
    · by_cases hlen : chat.messages.length < chat.settings.maxMessages
      · have h1 : (addMessage cm cid message fid now).1 = true := by
          simp [addMessage, h, hs, not_le.mpr hlen]
        rw [h1]
        simp [hs, hlen]
      · have hres : addMessage cm cid message fid now =
            (false, (endChat cm cid "message_limit_reached" none now).2) := by
          simp [addMessage, h, hs, not_lt.mp hlen]
        rw [hres]
        simp [hlen]
    · have hres : addMessage cm cid message fid now = (false, cm) := by
        simp [addMessage, h, hs]
      rw [hres]
      simp [hs]
  · intro hns
    simp [addMessage, h, hns]
  · intro hs hcap
    have hres : addMessage cm cid message fid now =
        (false, (endChat cm cid "message_limit_reached" none now).2) := by
      simp [addMessage, h, hs, hcap]
    obtain ⟨_, hch⟩ := endChat_chats cm cid "message_limit_reached" none now chat h
    refine ⟨by rw [hres], ?_⟩
    rw [hres]
    simp only [hch]
    rw [mget_merase]
    simp

/-- Witness for C7 amended: a room whose cap is already reached (cap
zero) rejects a message and is auto-ended; a missing room id fails with
no state change. -/
theorem addMessage_spec_witness :
    mget capCM.chats "r1" = some capChat ∧
    mget capCM.chats "nope" = none ∧
    (((addMessage capCM "r1" { id := none, sender := "a", text := "hi" } "m1" 5).1 = true ↔
      (capChat.status = "active" ∧ capChat.messages.length < capChat.settings.maxMessages)) ∧
    (capChat.status ≠ "active" →
      addMessage capCM "r1" { id := none, sender := "a", text := "hi" } "m1" 5 = (false, capCM)) ∧
    (capChat.status = "active" → capChat.settings.maxMessages ≤ capChat.messages.length →
      (((addMessage capCM "r1" { id := none, sender := "a", text := "hi" } "m1" 5).2 =
          (endChat capCM "r1" "message_limit_reached" none 5).2) ∧
       mget ((addMessage capCM "r1" { id := none, sender := "a", text := "hi" } "m1" 5).2).chats "r1" = none)) ∧
    addMessage capCM "nope" { id := none, sender := "a", text := "hi" } "m1" 5 = (false, capCM)) :=
  ⟨rfl, rfl,
    addMessage_spec capCM capCM "r1" "nope" { id := none, sender := "a", text := "hi" }
      "m1" 5 capChat rfl rfl⟩

end ChatManager

/-! ### Room creation and the single-active-room invariant (C6) -/

namespace ChatManager

/-- C6 counterexample: `createChat` performs no in-room check. With
alice already mapped to the active `room1`, creating `room2` for her
leaves her a participant of two active rooms. -/
theorem createChat_breaks_single_room_invariant :
    mget sampleCM1.userChats "alice" = some "room1" ∧
    countActiveRooms sampleCM1 "alice" = 1 ∧
    countActiveRooms sampleCM2 "alice" = 2 :=
  ⟨rfl, rfl, rfl⟩

/-- C6 amended: `createChat` does not require the participants to be
room-free; the at-most-one-active-room invariant is preserved only
under that precondition: when the room id is fresh and neither
participant is in any active room, every user ends with at most
`max(previous count, 1)` active rooms. -/
theorem createChat_preserves_single_room_invariant (cm : ChatManager)
    (u1 u2 ty cid : String) (now : Nat) (uid : String)
    (hfresh : mget cm.chats cid = none)
    (h1 : countActiveRooms cm u1 = 0) (h2 : countActiveRooms cm u2 = 0) :
    countActiveRooms (createChat cm u1 u2 ty cid now).2 uid ≤
      max (countActiveRooms cm uid) 1 := by
  have hch : (createChat cm u1 u2 ty cid now).2.chats =
      cm.chats ++ [(cid, (createChat cm u1 u2 ty cid now).1)] := by
    simp only [createChat]
    exact mset_of_mget_none _ _ _ hfresh
  unfold countActiveRooms at h1 h2 ⊢
  rw [hch, List.filter_append, List.length_append]
  by_cases hin : uid = u1 ∨ uid = u2
  · have hz : (List.filter
        (fun p => decide (p.2.status = "active" ∧ p.2.participants.contains uid = true))
        cm.chats).length = 0 := by
      rcases hin with rfl | rfl
      · exact h1
      · exact h2
    rw [hz]
    have hone : (List.filter
        (fun p => decide (p.2.status = "active" ∧ p.2.participants.contains uid = true))
        [(cid, (createChat cm u1 u2 ty cid now).1)]).length ≤ 1 := by
      simpa using List.length_filter_le _ [(cid, (createChat cm u1 u2 ty cid now).1)]
    omega
  · rw [not_or] at hin
    have hnone : (List.filter
        (fun p => decide (p.2.status = "active" ∧ p.2.participants.contains uid = true))
        [(cid, (createChat cm u1 u2 ty cid now).1)]).length = 0 := by
      simp [createChat, List.filter, hin.1, hin.2, Ne.symm hin.1, Ne.symm hin.2]
    rw [hnone]
    simp
  
/-- Witness for C6 amended: creating the alice/bob room in the empty
manager keeps alice at one active room. -/
theorem createChat_preserves_single_room_invariant_witness :
    mget ChatManager.init.chats "room1" = none ∧
    countActiveRooms ChatManager.init "alice" = 0 ∧
    countActiveRooms ChatManager.init "bob" = 0 ∧
    countActiveRooms (createChat ChatManager.init "alice" "bob" "text" "room1" 0).2 "alice" ≤
      max (countActiveRooms ChatManager.init "alice") 1 :=
  ⟨rfl, rfl, rfl,
    createChat_preserves_single_room_invariant ChatManager.init "alice" "bob" "text"
      "room1" 0 "alice" rfl rfl rfl⟩

end ChatManager

/-! ### Message sequence numbering (C2) -/

namespace ChatManager

theorem seqsOk_nil : seqsOk [] := rfl

theorem seqsOk_append (ms : List CMessage) (m : CMessage)
    (h : seqsOk ms) (hm : m.sequence = ms.length + 1) : seqsOk (ms ++ [m]) := by
  unfold seqsOk at h ⊢
  rw [List.map_append, h, List.length_append]
  simp [hm, List.range'_concat]
  omega

theorem endChat_preserves_seqInv (cm : ChatManager) (cid reason : String)
    (who : Option String) (now : Nat) (h : chatSeqInv cm) :
    chatSeqInv (endChat cm cid reason who now).2 := by
  intro cid2 chat2 h2
  cases hc : mget cm.chats cid with
  | none =>
    rw [endChat_of_none cm cid reason who now hc] at h2
    exact h cid2 chat2 h2
  | some chat =>
    obtain ⟨_, hch⟩ := endChat_chats cm cid reason who now chat hc
    rw [hch, mget_merase] at h2
    by_cases he : cid2 = cid
    · rw [if_pos he] at h2
      cases h2
    · rw [if_neg he] at h2
      exact h cid2 chat2 h2

theorem mset_preserves_seqInv (cm : ChatManager) (cid : String) (chat chatU : Chat)
    (hc : mget cm.chats cid = some chat) (hmsg : chatU.messages = chat.messages)
    (h : chatSeqInv cm) :
    chatSeqInv { cm with chats := mset cm.chats cid chatU } := by
  intro cid2 chat2 h2
  simp only [mget_mset] at h2
  by_cases he : cid2 = cid
  · rw [if_pos he] at h2
    injection h2 with h3
    subst h3
    rw [hmsg]
    exact h cid chat hc
  · rw [if_neg he] at h2
    exact h cid2 chat2 h2

theorem msetAppend_preserves_seqInv (cm : ChatManager) (cid : String) (chat chatU : Chat)
    (m : CMessage) (hc : mget cm.chats cid = some chat)
    (hmsg : chatU.messages = chat.messages ++ [m])
    (hm : m.sequence = chat.messages.length + 1)
    (h : chatSeqInv cm) :
    chatSeqInv { cm with chats := mset cm.chats cid chatU } := by
  intro cid2 chat2 h2
  simp only [mget_mset] at h2
  by_cases he : cid2 = cid
  · rw [if_pos he] at h2
    injection h2 with h3
    subst h3
    rw [hmsg]
    exact seqsOk_append chat.messages m (h cid chat hc) hm
  · rw [if_neg he] at h2
    exact h cid2 chat2 h2

theorem foldl_endChat_preserves_seqInv (l : List (String × Chat)) (cm : ChatManager)
    (now : Nat) (h : chatSeqInv cm) :
    chatSeqInv (l.foldl (fun acc p => (endChat acc p.1 "inactive_timeout" none now).2) cm) := by
  induction l generalizing cm with
  | nil => exact h
  | cons p l ih => exact ih _ (endChat_preserves_seqInv cm p.1 "inactive_timeout" none now h)

theorem stepC_preserves_seqInv (op : COp) (cm : ChatManager) (h : chatSeqInv cm) :
    chatSeqInv (stepC op cm) := by
  cases op with
  | create u1 u2 ty cid now =>
    intro cid2 chat2 h2
    simp only [stepC, createChat] at h2
    rw [mget_mset] at h2
    by_cases he : cid2 = cid
    · rw [if_pos he] at h2
      injection h2 with h3
      subst h3
      exact seqsOk_nil
    · rw [if_neg he] at h2
      exact h cid2 chat2 h2
  | message cid msg fid now =>
    simp only [stepC]
    cases hc : mget cm.chats cid with
    | none =>
      intro cid2 chat2 h2
      simp only [addMessage, hc] at h2
      exact h cid2 chat2 h2
    | some chat =>
      by_cases hs : chat.status = "active"
      · by_cases hlen : chat.settings.maxMessages ≤ chat.messages.length
        · have hres : (addMessage cm cid msg fid now).2 =
              (endChat cm cid "message_limit_reached" none now).2 := by
            simp [addMessage, hc, hs, hlen]
          rw [hres]
          exact endChat_preserves_seqInv cm cid "message_limit_reached" none now h
        · have hres : (addMessage cm cid msg fid now).2 =
              { cm with
                chats := mset cm.chats cid (updateChatAnalytics
                  { chat with
                    messages := chat.messages ++
                      [{ id := jsOr msg.id fid, sender := msg.sender, text := msg.text,
                         timestamp := now, chatId := cid, sequence := chat.messages.length + 1,
                         edited := false }]
                    metadata := { chat.metadata with messageCount := chat.metadata.messageCount + 1 }
                    lastActivity := now } now)
                totalMessages := cm.totalMessages + 1 } := by
            simp [addMessage, hc, hs, hlen]
          rw [hres]
          exact msetAppend_preserves_seqInv cm cid chat _
            { id := jsOr msg.id fid, sender := msg.sender, text := msg.text,
              timestamp := now, chatId := cid, sequence := chat.messages.length + 1,
              edited := false } hc rfl rfl h
      · intro cid2 chat2 h2
        have hres : (addMessage cm cid msg fid now).2 = cm := by
          simp [addMessage, hc, hs]
        rw [hres] at h2
        exact h cid2 chat2 h2
  | endRoom cid reason who now =>
    exact endChat_preserves_seqInv cm cid reason who now h
  | activity cid ak dt dd now =>
    intro cid2 chat2 h2
    simp only [stepC, updateActivity] at h2
    cases hc : mget cm.chats cid with
    | none =>
      rw [hc] at h2
      exact h cid2 chat2 h2
    | some chat =>
      rw [hc] at h2
      simp only at h2
      rw [mget_mset] at h2
      by_cases he : cid2 = cid
      · rw [if_pos he] at h2
        injection h2 with h3
        have hmsg : chat2.messages = chat.messages := by
          rw [← h3]
          split_ifs <;> first | rfl | (split <;> rfl)
        rw [hmsg]
        exact h cid chat hc
      · rw [if_neg he] at h2
        exact h cid2 chat2 h2
  | report cid rid it d repId now =>
    simp only [stepC, reportIssue]
    cases hc : mget cm.chats cid with
    | none =>
      intro cid2 chat2 h2
      exact h cid2 chat2 h2
    | some chat =>
      have hmid := mset_preserves_seqInv cm cid chat
        ({ chat with reports := chat.reports ++ [{ id := repId, reporterId := rid, issueType := it, description := d, timestamp := now, rstatus := "pending" }] })
        hc rfl h
      dsimp only
      by_cases hsev : it = "harassment" ∨ it = "inappropriate_content" ∨ it = "spam"
      · rw [if_pos hsev]
        exact endChat_preserves_seqInv _ cid _ (some rid) now hmid
      · rw [if_neg hsev]
        exact hmid
  | sweep th now =>
    simp only [stepC, cleanupInactiveChats]
    exact foldl_endChat_preserves_seqInv _ cm now h
  | timerFired cid now =>
    exact endChat_preserves_seqInv cm cid "timeout" none now h

theorem chatSeqInv_runC (ops : List COp) : chatSeqInv (runC ops) := by
  induction ops using List.reverseRecOn with
  | nil =>
    intro cid chat h
    simp [runC, init, mget] at h
  | append_singleton ops op ih =>
    rw [show runC (ops ++ [op]) = stepC op (runC ops) from by simp [runC, List.foldl_append]]
    exact stepC_preserves_seqInv op (runC ops) ih

end ChatManager

namespace ChatManager

/-- C2: in every state reachable by any sequence of `ChatManager`
operations, every live room's stored sequence numbers are exactly
`1, 2, …, n` in insertion order, and a successful `addMessage` extends
them to `1, …, n + 1`, i.e. assigns one plus the previous count. -/
theorem message_sequences_complete (ops : List COp) (cid : String) (chat : Chat)
    (message : MsgIn) (fid : String) (now : Nat)
    (h : mget (runC ops).chats cid = some chat) :
    chat.messages.map (fun m => m.sequence) = List.range' 1 chat.messages.length ∧
    ((addMessage (runC ops) cid message fid now).1 = true →
      ((mget ((addMessage (runC ops) cid message fid now).2).chats cid).map
        (fun c => c.messages.map (fun m => m.sequence))) =
        some (List.range' 1 (chat.messages.length + 1))) := by
  have h1 : seqsOk chat.messages := chatSeqInv_runC ops cid chat h
  refine ⟨h1, ?_⟩
  intro hsucc
  by_cases hs : chat.status = "active"
  · by_cases hlen : chat.settings.maxMessages ≤ chat.messages.length
    · exfalso
      have hfail : (addMessage (runC ops) cid message fid now).1 = false := by
        simp [addMessage, h, hs, hlen]
      rw [hsucc] at hfail
      cases hfail
    · have hres : (addMessage (runC ops) cid message fid now).2.chats =
          mset (runC ops).chats cid (updateChatAnalytics
            { chat with
              messages := chat.messages ++
                [{ id := jsOr message.id fid, sender := message.sender, text := message.text,
                   timestamp := now, chatId := cid, sequence := chat.messages.length + 1,
                   edited := false }]
              metadata := { chat.metadata with messageCount := chat.metadata.messageCount + 1 }
              lastActivity := now } now) := by
        simp [addMessage, h, hs, hlen]
      rw [hres, mget_mset_self, Option.map_some']
      have hok : seqsOk (chat.messages ++
          [{ id := jsOr message.id fid, sender := message.sender, text := message.text,
             timestamp := now, chatId := cid, sequence := chat.messages.length + 1,
             edited := false }]) :=
        seqsOk_append chat.messages _ h1 rfl
      unfold seqsOk at hok
      have hmsgs : (updateChatAnalytics
          { chat with
            messages := chat.messages ++
              [{ id := jsOr message.id fid, sender := message.sender, text := message.text,
                 timestamp := now, chatId := cid, sequence := chat.messages.length + 1,
                 edited := false }]
            metadata := { chat.metadata with messageCount := chat.metadata.messageCount + 1 }
            lastActivity := now } now).messages =
          chat.messages ++
            [{ id := jsOr message.id fid, sender := message.sender, text := message.text,
               timestamp := now, chatId := cid, sequence := chat.messages.length + 1,
               edited := false }] := rfl
      dsimp only
      rw [hmsgs, hok]
      simp
  · exfalso
    have hfail : (addMessage (runC ops) cid message fid now).1 = false := by
      simp [addMessage, h, hs]
    rw [hsucc] at hfail
    cases hfail

/-- Witness for C2: a trace creating a room and appending two messages
yields sequences `[1, 2]`; a third append at time 7 extends them to
`[1, 2, 3]`. -/
theorem message_sequences_complete_witness :
    mget (runC sampleChatOps).chats "room1" = some sampleChat2 ∧
    (sampleChat2.messages.map (fun m => m.sequence) =
        List.range' 1 sampleChat2.messages.length ∧
      ((addMessage (runC sampleChatOps) "room1"
          { id := none, sender := "alice", text := "ok" } "m3" 7).1 = true →
        ((mget ((addMessage (runC sampleChatOps) "room1"
            { id := none, sender := "alice", text := "ok" } "m3" 7).2).chats "room1").map
          (fun c => c.messages.map (fun m => m.sequence))) =
          some (List.range' 1 (sampleChat2.messages.length + 1)))) :=
  ⟨rfl, message_sequences_complete sampleChatOps "room1" sampleChat2
    { id := none, sender := "alice", text := "ok" } "m3" 7 rfl⟩

end ChatManager
